import Mathlib

/-!
Shallow embedding, in Lean 4, of the decision core of the `hipocap_server`
security gateway (files `config.py`, `pipeline.py`, `prompts.py`,
`database/repositories/policy_repository.py`), together with theorems that
settle the specification claims about it.

Modelling conventions:
* Python `float` scores are modelled as `ℚ`.  Every numeric constant in the
  sources is an exact decimal, and no claim hinges on binary floating-point
  rounding artefacts (verified case by case at the relevant comparisons).
* Python dicts are modelled as ordered association lists
  (`List (String × α)`), matching insertion-order iteration; dicts holding a
  fixed set of known keys are modelled as structures whose `Option` fields
  record key presence (`none` = key absent), so that `.get(k, default)`
  translates to `Option.getD`.
* JSON-serialised payloads (`json.dumps(function_result, indent=2)` /
  `str(function_result)`) are abstracted as the resulting `String`; the
  claims about the pipeline quantify over every function result, and every
  serialised form is covered by quantifying over the string.
* The fallible LLM / classifier ports are modelled as oracle inputs: the
  classifier score is a `ℚ` argument, and each chat-completion call is an
  outcome value (parsed payload, timeout, or caught transport/schema error),
  exactly the cases distinguished by the `except` clauses in the source.
* A Python run that raises an uncaught exception is modelled as `none` in an
  `Option` result.
-/

namespace Hipocap

/-- Python `str.lower()` (over the ASCII range the sources use). -/
def strToLower (s : String) : String := ⟨s.data.map Char.toLower⟩

/-- Python `s.startswith(pre)`. -/
def strStartsWith (s pre : String) : Bool := pre.data.isPrefixOf s.data

/-- Python `s[n:]` character drop. -/
def strDrop (s : String) (n : Nat) : String := ⟨s.data.drop n⟩

/-- Python `needle in hay` for strings: contiguous substring test. -/
def strContainsSub (hay needle : String) : Bool :=
  decide (needle.data <:+: hay.data)

/-- First-match lookup in a Python dict modelled as an ordered association list. -/
def alookup {α : Type} : List (String × α) → String → Option α
  | [], _ => none
  | (k, v) :: rest, key => if k = key then some v else alookup rest key

/-- Python truthiness of an optional string (`None` and `""` are falsy). -/
def optTruthy (o : Option String) : Bool := o.getD "" ≠ ""

/-!  ## Policy configuration model (`config.py`)  -/

/-- One entry of the `roles` mapping (`{"permissions": [...]}`); a missing
`permissions` key is read with default `[]`, so it is modelled as a plain list. -/
structure RoleCfg where
  permissions : List String := []
  deriving Repr, DecidableEq

/-- An `output_restrictions` dict for one function.  Only the two keys that
`pipeline.py` reads are modelled; `.get("cannot_trigger_functions", False)`
and a truthiness test on `max_severity_allowed`. -/
structure OutputRestriction where
  cannot_trigger_functions : Bool := false
  max_severity_allowed : Option String := none
  deriving Repr, DecidableEq

/-- One entry of the `functions` mapping. -/
structure FuncCfg where
  allowed_roles : List String := []
  output_restrictions : Option OutputRestriction := none
  hitl_rules : Option String := none
  deriving Repr, DecidableEq

/-- One entry of the `function_chaining` mapping. -/
structure ChainCfg where
  allowed_targets : List String := []
  blocked_targets : List String := []
  description : String := ""
  deriving Repr, DecidableEq

/-- A severity rule dict.  `Option` fields model key presence so that
`rule.get("block", False)` / `rule.get("allow_output_use", True)` are
`Option.getD`, and Python dict truthiness is "some key is present". -/
structure SevRule where
  allow_function_calls : Option Bool := none
  allow_output_use : Option Bool := none
  block : Option Bool := none
  deriving Repr, DecidableEq

/-- The `condition` dict of a context rule. -/
structure CtxCond where
  severity : Option String := none
  contains_keywords : Option (List String) := none
  contains_patterns : Option (List String) := none
  contains_urls : Bool := false
  deriving Repr, DecidableEq

/-- The `action` dict of a context rule (`.get("block", False)` defaults). -/
structure CtxAction where
  block : Bool := false
  reason : Option String := none
  deriving Repr, DecidableEq

/-- One context rule (`rule.get("function")` may be absent). -/
structure CtxRule where
  function : Option String := none
  condition : CtxCond := {}
  action : CtxAction := {}
  deriving Repr, DecidableEq

/-- The `decision_thresholds` dict with key-presence tracking. -/
structure DecisionThresholdsCfg where
  block_threshold : Option ℚ := none
  allow_threshold : Option ℚ := none
  use_severity_fallback : Option Bool := none
  deriving Repr, DecidableEq

/-- Effective decision thresholds after `Config.get_decision_thresholds`
defaulting. -/
structure DecisionThresholds where
  block_threshold : ℚ := 0.7
  allow_threshold : ℚ := 0.3
  use_severity_fallback : Bool := true
  deriving Repr, DecidableEq

/-- The loaded policy configuration (`Config.config` in `config.py`). -/
structure Config where
  roles : List (String × RoleCfg) := []
  functions : List (String × FuncCfg) := []
  severity_rules : List (String × SevRule) := []
  output_restrictions : List (String × OutputRestriction) := []
  function_chaining : List (String × ChainCfg) := []
  context_rules : List CtxRule := []
  decision_thresholds : Option DecisionThresholdsCfg := none
  deriving Repr, DecidableEq

/-- Embeds `Config.check_role_permission` (config.py lines 77-106). -/
def checkRolePermission (c : Config) (role functionName : String) : Bool :=
  match alookup c.roles role with
  | none => false
  | some roleCfg =>
    if roleCfg.permissions.contains "*" then true
    else if roleCfg.permissions.contains functionName then true
    else
      match alookup c.functions functionName with
      | some funcCfg => funcCfg.allowed_roles.contains role
      | none => false

/-- Embeds `Config.check_function_chaining` (config.py lines 167-195). -/
def checkFunctionChaining (c : Config) (sourceFunc targetFunc : String) : Bool :=
  match alookup c.function_chaining sourceFunc with
  | none => true
  | some chainCfg =>
    if chainCfg.blocked_targets.contains "*" then false
    else if chainCfg.blocked_targets.contains targetFunc then false
    else if chainCfg.allowed_targets.contains "*" then true
    else if chainCfg.allowed_targets.contains targetFunc then true
    else true

/-- Embeds the `severity_order` dict (`.get(s, 0)` default). -/
def severityOrderLevel (s : String) : Nat :=
  if s = "safe" then 0
  else if s = "low" then 1
  else if s = "medium" then 2
  else if s = "high" then 3
  else if s = "critical" then 4
  else 0

/-- Embeds `Config.get_severity_rule` (config.py lines 108-122): lower-case the
name, fall back to the `"safe"` rule when absent; `none` models the final
`.get(severity, {})` returning the empty dict. -/
def getSeverityRuleOpt (c : Config) (severity : String) : Option SevRule :=
  let s := strToLower severity
  match alookup c.severity_rules s with
  | some r => some r
  | none => alookup c.severity_rules "safe"

/-- Reads `severity_rule.get("block", False)` through `getSeverityRuleOpt`
(an absent or empty rule dict yields `false`). -/
def sevRuleBlocks (c : Config) (severity : String) : Bool :=
  ((getSeverityRuleOpt c severity).map (fun r => r.block.getD false)).getD false

/-- Reads `severity_rule.get("allow_output_use", True)` through
`getSeverityRuleOpt`. -/
def sevRuleAllowOutputUse (c : Config) (severity : String) : Bool :=
  ((getSeverityRuleOpt c severity).map (fun r => r.allow_output_use.getD true)).getD true

/-- Embeds `Config.check_output_restriction` (config.py lines 124-141); the
final `return {}` is the default `OutputRestriction`. -/
def checkOutputRestriction (c : Config) (functionName : String) : OutputRestriction :=
  match alookup c.output_restrictions functionName with
  | some r => r
  | none =>
    match alookup c.functions functionName with
    | some funcCfg => funcCfg.output_restrictions.getD {}
    | none => {}

/-- Embeds `Config.get_decision_thresholds` (config.py lines 315-330). -/
def getDecisionThresholds (c : Config) : DecisionThresholds :=
  match c.decision_thresholds with
  | none => {}
  | some t =>
    { block_threshold := t.block_threshold.getD 0.7
      allow_threshold := t.allow_threshold.getD 0.3
      use_severity_fallback := t.use_severity_fallback.getD true }

/-- Embeds the severity sub-condition evaluation of
`Config.evaluate_context_rules` (config.py lines 234-258): the four parsed
comparator spellings each set `matches = False` exactly when the comparison
fails, and any other condition string is compared verbatim (lower-cased)
against the severity name. -/
def severityCondMatches (severityCondition severityLower : String) (currentLevel : Nat) : Bool :=
  if strStartsWith severityCondition ">=" then
    decide (currentLevel ≥ severityOrderLevel (strToLower (strDrop severityCondition 2)))
  else if strStartsWith severityCondition ">" then
    decide (currentLevel > severityOrderLevel (strToLower (strDrop severityCondition 1)))
  else if strStartsWith severityCondition "<=" then
    decide (currentLevel ≤ severityOrderLevel (strToLower (strDrop severityCondition 2)))
  else if strStartsWith severityCondition "<" then
    decide (currentLevel < severityOrderLevel (strToLower (strDrop severityCondition 1)))
  else
    severityLower = strToLower severityCondition

/-- URL indicators of the `contains_urls` sub-condition (config.py line 280). -/
def urlIndicators : List String :=
  ["http://", "https://", "www.", ".com", ".org", ".net"]

/-- Rule loop of `Config.evaluate_context_rules` (config.py lines 227-287);
`resultLower` is the lower-cased serialised result, `resultText` the raw one
(the URL check uses the raw text, line 281). -/
def evaluateContextRulesGo (functionName resultText resultLower severityLower : String)
    (currentLevel : Nat) : List CtxRule → Option CtxAction
  | [] => none
  | rule :: rest =>
    if rule.function ≠ some functionName then
      evaluateContextRulesGo functionName resultText resultLower severityLower currentLevel rest
    else
      let m1 := match rule.condition.severity with
        | some sc => severityCondMatches sc severityLower currentLevel
        | none => true
      if !m1 then
        evaluateContextRulesGo functionName resultText resultLower severityLower currentLevel rest
      else
        let m2 := match rule.condition.contains_keywords with
          | some kws => kws.any (fun k => strContainsSub resultLower (strToLower k))
          | none => true
        if !m2 then
          evaluateContextRulesGo functionName resultText resultLower severityLower currentLevel rest
        else
          let m3 := match rule.condition.contains_patterns with
            | some pats => pats.any (fun p => strContainsSub resultLower (strToLower p))
            | none => true
          if !m3 then
            evaluateContextRulesGo functionName resultText resultLower severityLower currentLevel rest
          else
            let m4 := if rule.condition.contains_urls then
                urlIndicators.any (fun i => strContainsSub resultText i)
              else true
            if !m4 then
              evaluateContextRulesGo functionName resultText resultLower severityLower currentLevel rest
            else some rule.action

/-- Embeds `Config.evaluate_context_rules` (config.py lines 197-287) over the
serialised function result; `none` models the empty-dict "no rule matched"
return. -/
def evaluateContextRules (c : Config) (functionName resultText severity : String) :
    Option CtxAction :=
  evaluateContextRulesGo functionName resultText (strToLower resultText) (strToLower severity)
    (severityOrderLevel (strToLower severity)) c.context_rules

/-!  ## Keyword detector (`pipeline.py`, `GuardPipeline._detect_keywords`)  -/

/-- Default sensitive keyword list (pipeline.py lines 254-272). -/
def defaultSensitiveKeywords : List String :=
  ["confidential", "classified", "top secret", "restricted", "sensitive",
   "for internal use only", "do not distribute", "need-to-know",
   "proprietary", "trade secret", "internal use only",
   "do not share", "confidential business information",
   "password reset", "account verification", "urgent action required",
   "click here", "verify now", "immediate action needed",
   "your account will be closed", "suspicious activity detected",
   "wire transfer", "payment required", "refund processing",
   "account suspended", "payment failed",
   "ssn", "social security number", "credit card",
   "date of birth", "mother\x27s maiden name"]

/-- Category pattern lists (pipeline.py lines 301-305). -/
def securityPatterns : List String :=
  ["confidential", "classified", "top secret", "restricted", "sensitive",
   "internal use only", "do not distribute", "need-to-know"]

/-- Business category patterns. -/
def businessPatterns : List String :=
  ["proprietary", "trade secret", "do not share", "confidential business"]

/-- Action-triggering category patterns. -/
def actionPatterns : List String :=
  ["password reset", "account verification", "urgent action", "click here",
   "verify now", "immediate action", "account will be closed", "suspicious activity"]

/-- Financial category patterns. -/
def financialPatterns : List String :=
  ["wire transfer", "payment required", "refund", "account suspended", "payment failed"]

/-- PII category patterns. -/
def piiPatterns : List String :=
  ["ssn", "social security", "credit card", "date of birth", "mother\x27s maiden name"]

/-- Result of `GuardPipeline._detect_keywords`. -/
structure KeywordDetection where
  detected : Bool
  detected_keywords : List String
  keyword_count : Nat
  security : List String
  business : List String
  action_triggering : List String
  financial : List String
  pii : List String
  risk_score : ℚ
  severity : String
  deriving Repr, DecidableEq

/-- Membership of a detected keyword in a category pattern list
(`any(pattern in keyword_lower for pattern in patterns)`). -/
def keywordInCategory (patterns : List String) (keyword : String) : Bool :=
  patterns.any (fun p => strContainsSub (strToLower keyword) p)

/-- The detected-keyword list (pipeline.py lines 280-292): the keywords of
the list that occur, case-insensitively, in the serialised result. -/
def detectedKeywordsOf (content : String) (kws : List String) : List String :=
  kws.filter (fun k => strContainsSub content (strToLower k))

/-- Security bucket of the category `elif` chain (pipeline.py lines 307-318). -/
def securityBucket (detected : List String) : List String :=
  detected.filter (fun k => keywordInCategory securityPatterns k)

/-- Business bucket (reached when the security test failed). -/
def businessBucket (detected : List String) : List String :=
  detected.filter (fun k =>
    !keywordInCategory securityPatterns k && keywordInCategory businessPatterns k)

/-- Action-triggering bucket. -/
def actionBucket (detected : List String) : List String :=
  detected.filter (fun k =>
    !keywordInCategory securityPatterns k && !keywordInCategory businessPatterns k &&
    keywordInCategory actionPatterns k)

/-- Financial bucket. -/
def financialBucket (detected : List String) : List String :=
  detected.filter (fun k =>
    !keywordInCategory securityPatterns k && !keywordInCategory businessPatterns k &&
    !keywordInCategory actionPatterns k && keywordInCategory financialPatterns k)

/-- PII bucket. -/
def piiBucket (detected : List String) : List String :=
  detected.filter (fun k =>
    !keywordInCategory securityPatterns k && !keywordInCategory businessPatterns k &&
    !keywordInCategory actionPatterns k && !keywordInCategory financialPatterns k &&
    keywordInCategory piiPatterns k)

/-- The risk-score computation of `_detect_keywords` (pipeline.py lines
320-333): `base = min(count * 0.1, 0.7)`, sequential category-multiplier
updates, `risk = min(base * multiplier, 0.95)`. -/
def keywordScore (detectedCount : Nat) (anySecurity anyAction anyFinancial anyPii : Bool) :
    ℚ :=
  let base : ℚ := min ((detectedCount : ℚ) * 0.1) 0.7
  let m2 : ℚ := if anySecurity then max 1 1.2 else 1
  let m3 : ℚ := if anyAction then max m2 1.3 else m2
  let m4 : ℚ := if anyFinancial then max m3 1.2 else m3
  let m5 : ℚ := if anyPii then max m4 1.3 else m4
  min (base * m5) 0.95

/-- The severity banding of `_detect_keywords` (pipeline.py lines 335-343). -/
def severityBand (risk : ℚ) : String :=
  if risk ≥ 0.7 then "high"
  else if risk ≥ 0.4 then "medium"
  else if risk ≥ 0.2 then "low"
  else "safe"

/-- Assembles the `_detect_keywords` result dict (pipeline.py lines 345-359)
from the detected list and the five category buckets. -/
def buildKeywordDetection (detected security business action financial pii : List String) :
    KeywordDetection :=
  let risk := keywordScore detected.length (decide (0 < security.length))
    (decide (0 < action.length)) (decide (0 < financial.length)) (decide (0 < pii.length))
  { detected := decide (0 < detected.length)
    detected_keywords := detected
    keyword_count := detected.length
    security := security
    business := business
    action_triggering := action
    financial := financial
    pii := pii
    risk_score := risk
    severity := severityBand risk }

/-- Embeds `GuardPipeline._detect_keywords` (pipeline.py lines 238-359) over
the serialised function result (`json.dumps(result, indent=2)` for
dicts/lists, `str(result)` otherwise), abstracted as `resultText`. -/
def detectKeywords (resultText : String) (keywords : Option (List String)) : KeywordDetection :=
  buildKeywordDetection
    (detectedKeywordsOf (strToLower resultText) (keywords.getD defaultSensitiveKeywords))
    (securityBucket
      (detectedKeywordsOf (strToLower resultText) (keywords.getD defaultSensitiveKeywords)))
    (businessBucket
      (detectedKeywordsOf (strToLower resultText) (keywords.getD defaultSensitiveKeywords)))
    (actionBucket
      (detectedKeywordsOf (strToLower resultText) (keywords.getD defaultSensitiveKeywords)))
    (financialBucket
      (detectedKeywordsOf (strToLower resultText) (keywords.getD defaultSensitiveKeywords)))
    (piiBucket
      (detectedKeywordsOf (strToLower resultText) (keywords.getD defaultSensitiveKeywords)))

/-!  ## Quarantine Phase-1 prompt (`prompts.py`) and its orchestrator wiring  -/

/-- Embeds `format_quarantine_stage1_user_prompt` (prompts.py lines 262-279);
the `if user_query:` truthiness test treats `None` and `""` alike. -/
def formatQuarantineStage1UserPrompt (userQuery : Option String) (formattedResult : String) :
    String :=
  if optTruthy userQuery then
    userQuery.getD "" ++ "\n\nHere\x27s the data I received:\n\n" ++ formattedResult
  else
    "Please help me understand this information:\n\n" ++ formattedResult

/-- Python `repr` of a list of strings (for strings without quote characters),
as rendered by an f-string interpolating a dict value. -/
def pyReprStrList (xs : List String) : String :=
  "[" ++ String.intercalate ", " (xs.map (fun s => "\x27" ++ s ++ "\x27")) ++ "]"

/-- Python `str()` of the `get_function_chaining_config` dict, as an f-string
renders it when it is interpolated in place of a user query. -/
def pyReprChainInfo (ci : ChainCfg) : String :=
  "\x7b\x27allowed_targets\x27: " ++ pyReprStrList ci.allowed_targets ++
  ", \x27blocked_targets\x27: " ++ pyReprStrList ci.blocked_targets ++
  ", \x27description\x27: \x27" ++ ci.description ++ "\x27\x7d"

/-- The Phase-1 user content actually produced when `GuardPipeline.analyze`
runs the quarantine probe (pipeline.py lines 1886-1893 calling lines 926-934,
then line 1069).  `analyze` passes its arguments positionally as
`_analyze_quarantine(function_name, function_result, user_query,
function_chaining_info, ...)`, so `user_query` binds to the probe parameter
`function_args` and `function_chaining_info` binds to the probe parameter
`user_query`.  Hence the request user query (`requestUserQuery` below) is
never read by Phase 1; the chaining-info dict, when present, is rendered by
`str()` in its place. -/
def orchestratorStage1UserContent (requestUserQuery : Option String)
    (functionChainingInfo : Option ChainCfg) (formattedResult : String) : String :=
  formatQuarantineStage1UserPrompt (functionChainingInfo.map pyReprChainInfo) formattedResult

/-!  ## LLM analyst stage (`GuardPipeline._analyze_with_llm_agent`)  -/

/-- Parsed JSON payload of a successful chat completion in the analyst stage;
`Option` fields model key presence for the `.get(key, default)` reads. -/
structure StructuredAnalysis where
  score : Option ℚ := none
  decision : Option String := none
  reason : Option String := none
  threats_found : Option (List String) := none
  policy_violations : Option (List String) := none
  severity : Option String := none
  deriving Repr, DecidableEq

/-- Outcome of one structured chat-completion attempt, as the `except`
clauses of `_analyze_with_llm_agent` distinguish them: a parsed payload, an
`openai.APITimeoutError` / `TimeoutError`, or any other caught error
(transport, schema rejection, JSON parse failure). -/
inductive CompleterOutcome where
  | ok (a : StructuredAnalysis)
  | timeout
  | caughtErr
  deriving Repr, DecidableEq

/-- Outcome of the final plain-text (unformatted) completion attempt. -/
inductive PlainOutcome where
  | ok (text : String)
  | timeout
  | err
  deriving Repr, DecidableEq

/-- The dict returned by `_analyze_with_llm_agent`, restricted to the keys the
orchestrator reads.  `hasError` records presence of a truthy `"error"` key;
a `none` score models an absent `"score"` key. -/
structure LLMResult where
  decision : String
  score : Option ℚ := none
  reason : String := ""
  severity : Option String := none
  threats_found : List String := []
  policy_violations : List String := []
  hasError : Bool := false
  deriving Repr, DecidableEq

/-- Successful-parse result of the analyst (pipeline.py lines 682-718): quick
mode returns only score/decision/reason, full mode adds the detailed fields
with their `.get` defaults. -/
def llmSuccessResult (quickMode : Bool) (a : StructuredAnalysis) : LLMResult :=
  { decision := a.decision.getD "ALLOW"
    score := some (a.score.getD 0)
    reason := a.reason.getD ""
    severity := if quickMode then none else some (a.severity.getD "safe")
    threats_found := if quickMode then [] else a.threats_found.getD []
    policy_violations := if quickMode then [] else a.policy_violations.getD []
    hasError := false }

/-- Timeout sentinel of the analyst (pipeline.py lines 726-733); the
exception text appended to the reason in the source is elided. -/
def llmTimeoutResult : LLMResult :=
  { decision := "ERROR", score := some 0,
    reason := "LLM analysis timed out after 30 seconds", hasError := true }

/-- Timeout sentinel when the final plain fallback also times out
(pipeline.py lines 780-787). -/
def llmFallbackTimeoutResult : LLMResult :=
  { decision := "ERROR", score := some 0,
    reason := "LLM analysis timed out (fallback also timed out)", hasError := true }

/-- Result when the final plain fallback succeeds (pipeline.py lines
754-776): ALLOW with score 0.0 and an `error` key; full mode adds safe/empty
detail fields. -/
def llmFallbackAllowResult (quickMode : Bool) : LLMResult :=
  { decision := "ALLOW", score := some 0,
    reason := "Fallback analysis - structured outputs not supported",
    severity := if quickMode then none else some "safe",
    threats_found := [], policy_violations := [], hasError := true }

/-- Result when the final plain fallback fails with a non-timeout error
(pipeline.py lines 788-795): ERROR with score 1.0; exception text elided. -/
def llmTotalFailureResult : LLMResult :=
  { decision := "ERROR", score := some 1,
    reason := "LLM analysis failed (fallback also failed)", hasError := true }

/-- Skip sentinel when the agent is disabled or no client is available
(pipeline.py lines 581-586). -/
def llmSkippedResult : LLMResult :=
  { decision := "SKIPPED", reason := "", hasError := true }

/-- Embeds the control flow of `GuardPipeline._analyze_with_llm_agent`
(pipeline.py lines 560-795) over the outcomes of its three completion
attempts: structured `json_schema` (`o1`), `json_object` fallback (`o2`),
plain unformatted fallback (`o3`).  A timeout at any attempt short-circuits
to the timeout sentinel; a caught non-timeout error steps down the ladder. -/
def analyzeWithLLMAgent (enableLlmAgent clientAvailable quickMode : Bool)
    (o1 o2 : CompleterOutcome) (o3 : PlainOutcome) : LLMResult :=
  if !(enableLlmAgent && clientAvailable) then llmSkippedResult
  else
    match o1 with
    | .ok a => llmSuccessResult quickMode a
    | .timeout => llmTimeoutResult
    | .caughtErr =>
      match o2 with
      | .ok a => llmSuccessResult quickMode a
      | .timeout => llmTimeoutResult
      | .caughtErr =>
        match o3 with
        | .ok _ => llmFallbackAllowResult quickMode
        | .timeout => llmFallbackTimeoutResult
        | .err => llmTotalFailureResult

/-!  ## Stage result types for the orchestrator  -/

/-- The dict returned by `GuardPipeline._analyze_quarantine` on every path
that returns normally with the keys the orchestrator reads: every such dict
carries a decision, a numeric score and a severity string (the early-skip
dicts use `0.0` / `"safe"`, the except-branch error dict likewise). -/
structure QuarResult where
  decision : String
  score : ℚ
  severity : String
  deriving Repr, DecidableEq

/-- The quarantine stage value held by `analyze`:
`notEnabled` is the guard return of `_analyze_quarantine` (pipeline.py lines
953-958, decision SKIPPED with no score/severity keys), `sentinel` is the
skip dict built inline in `analyze` (lines 1903-1910, whose score and
severity keys are present but `None`), and `real q` is any other
`_analyze_quarantine` return. -/
inductive QuarOut where
  | notEnabled
  | sentinel
  | real (q : QuarResult)
  deriving Repr, DecidableEq

/-- The `"decision"` entry of the quarantine stage value. -/
def quarDecision : QuarOut → String
  | .notEnabled => "SKIPPED"
  | .sentinel => "SKIPPED"
  | .real q => q.decision

/-- The truthy severity read at pipeline.py line 1933
(`quarantine_result.get("severity")`): absent for `notEnabled`, `None` for
the sentinel, the severity string otherwise. -/
def quarSeverityTruthy : QuarOut → Option String
  | .notEnabled => none
  | .sentinel => none
  | .real q => if q.severity ≠ "" then some q.severity else none

/-- Result of `GuardPipeline._analyze_input` restricted to the keys the
orchestrator reads. -/
structure InputResult where
  decision : String
  score : ℚ
  severity : String
  deriving Repr, DecidableEq

/-- Embeds `Analyzer._determine_severity` (analyzer.py lines 154-175) at the
default thresholds 0.1/0.3/0.5/0.7/0.9 that `GuardPipeline.__init__` leaves
in place (both bands below 0.9 and above 0.7 yield HIGH, as in the source). -/
def bandInputSeverity (score : ℚ) : String :=
  if score < 0.1 then "safe"
  else if score < 0.3 then "low"
  else if score < 0.5 then "medium"
  else if score < 0.7 then "high"
  else if score < 0.9 then "high"
  else "critical"

/-- Embeds `GuardPipeline._analyze_input` (pipeline.py lines 361-396) over
the classifier combined score: BLOCK at or above `input_block_threshold`,
severity from the analyzer band. -/
def analyzeInput (inputBlockThreshold inputScore : ℚ) : InputResult :=
  { decision := if inputScore ≥ inputBlockThreshold then "BLOCK" else "PASS"
    score := inputScore
    severity := bandInputSeverity inputScore }

/-- The response dict of `GuardPipeline.analyze`, restricted to the fields
the claims are about; `final_score`/`blocked_at`/`warning` are `none` when
the corresponding key is absent or `None`.  Reason strings (built with
score interpolation in the source) are not modelled. -/
structure Response where
  final_decision : String
  safe_to_use : Bool
  blocked_at : Option String := none
  final_score : Option ℚ := none
  warning : Option String := none
  deriving Repr, DecidableEq

/-!  ## Final fusion (`GuardPipeline.analyze`, lines 2022-2131)  -/

/-- Outcome of the final-decision fusion block. -/
structure FusionOut where
  final_decision : String
  blocked_at : Option String := none
  final_score : Option ℚ := none
  deriving Repr, DecidableEq

/-- The quarantine/input tail of the initial `final_score` assignment chain
(pipeline.py lines 2041-2044): the real dict contributes its score, the
inline skip sentinel has a `"score"` key holding `None` (so `final_score`
becomes `None`), and the not-enabled dict has no `"score"` key so the input
score is used. -/
def quarFusionScoreEntry : QuarOut → ℚ → Option ℚ
  | .real q, _ => some q.score
  | .sentinel, _ => none
  | .notEnabled, inputScore => some inputScore

/-- Embeds the fusion block of `GuardPipeline.analyze` (pipeline.py lines
2022-2131).  `none` models an uncaught `TypeError`/`AttributeError` raised
when the inline skip sentinel (score/severity `None`) reaches this code.
Note that the Priority-3 `combined_score` is the maximum of the LLM-analyst
and quarantine scores only (with the `0.0` initial value); the input stage
score enters only the fallback initial assignment of `final_score`. -/
def fusionStep (cfg : Option Config) (llmRes : Option LLMResult) (quar : QuarOut)
    (inputScore : ℚ) : Option FusionOut :=
  let dt : DecisionThresholds := match cfg with
    | some c => getDecisionThresholds c
    | none => {}
  let fs0 : Option ℚ := match llmRes with
    | some l => match l.score with
      | some s => some s
      | none => quarFusionScoreEntry quar inputScore
    | none => quarFusionScoreEntry quar inputScore
  let llmScoreUpd : Option ℚ := match llmRes with
    | some l => match l.score with | some s => some s | none => fs0
    | none => fs0
  -- Priority 1 (lines 2047-2052): LLM policy violations always block
  if (match llmRes with | some l => !l.policy_violations.isEmpty | none => false : Bool) then
    some { final_decision := "BLOCKED", blocked_at := some "llm_analysis",
           final_score := llmScoreUpd }
  -- Priority 2 (lines 2054-2064): explicit LLM BLOCK decision
  else if (match llmRes with | some l => l.decision == "BLOCK" | none => false : Bool) then
    some { final_decision := "BLOCKED", blocked_at := some "llm_analysis",
           final_score := llmScoreUpd }
  else
    -- Priority 3 (lines 2066-2131); the guard `llm_analysis_result or
    -- quarantine_result` is always true since the quarantine dict is never
    -- empty, so the elif body always runs here.
    let step1 : Option (String × ℚ × Option ℚ) := match llmRes with
      | none => some ("safe", 0, fs0)
      | some l =>
        let lsev := strToLower (l.severity.getD "safe")
        let maxSev := if severityOrderLevel lsev > severityOrderLevel "safe" then lsev
          else "safe"
        let lscore : ℚ := match l.score with
          | some s => s
          | none =>
            min ((severityOrderLevel lsev : ℚ) * 0.2
              + min ((l.threats_found.length : ℚ) * 0.1) 0.3
              + min ((l.policy_violations.length : ℚ) * 0.2) 0.4) 1
        let combined : ℚ := max 0 lscore
        match fs0 with
        | some f => some (maxSev, combined, some (if lscore > f then lscore else f))
        | none => none
    match step1 with
    | none => none
    | some (maxSev1, combined1, fs1) =>
      let step2 : Option (String × ℚ × Option ℚ) := match quar with
        | .sentinel => none
        | .notEnabled =>
          some (if severityOrderLevel "safe" > severityOrderLevel maxSev1 then "safe"
            else maxSev1, combined1, fs1)
        | .real q =>
          let qsev := strToLower q.severity
          let maxSev := if severityOrderLevel qsev > severityOrderLevel maxSev1 then qsev
            else maxSev1
          let combined : ℚ := max combined1 q.score
          match fs1 with
          | some f => some (maxSev, combined, some (if q.score > f then q.score else f))
          | none => none
      match step2 with
      | none => none
      | some (maxSev, combined, fs2) =>
        if combined ≥ dt.block_threshold then
          some { final_decision := "BLOCKED",
                 blocked_at := some (if llmRes.isSome then "llm_analysis"
                   else "quarantine_analysis"),
                 final_score := fs2 }
        else if combined < dt.allow_threshold then
          some { final_decision := "ALLOWED", blocked_at := none, final_score := fs2 }
        else if dt.use_severity_fallback then
          if (match cfg with | some c => sevRuleBlocks c maxSev | none => false : Bool) then
            some { final_decision := "BLOCKED", blocked_at := some "severity_rule",
                   final_score := fs2 }
          else
            some { final_decision := "ALLOWED", blocked_at := none, final_score := fs2 }
        else
          if combined ≥ (dt.block_threshold + dt.allow_threshold) / 2 then
            some { final_decision := "BLOCKED", blocked_at := some "threshold",
                   final_score := fs2 }
          else
            some { final_decision := "ALLOWED", blocked_at := none, final_score := fs2 }

/-!  ## Pipeline orchestrator (`GuardPipeline.analyze`, lines 1489-2158)  -/

/-- The tail of `GuardPipeline.analyze` from the skipped-quarantine return
onward (pipeline.py lines 1912-2158), over the quarantine stage value and
the LLM stage result already computed by the earlier stages. -/
def analyzeQuarTail (cfg : Option Config) (functionName : String)
    (targetFunction : Option String) (llmAnalysis : Bool)
    (llmRes : Option LLMResult) (quarRes : QuarOut) (inputScore : ℚ) :
    Option Response :=
  -- skipped quarantine (lines 1912-1930)
  if quarDecision quarRes == "SKIPPED" &&
      (!llmAnalysis || (match llmRes with | some l => !l.hasError | none => false)) then
    some { final_decision := "ALLOWED", safe_to_use := true }
  -- blocking severity rule after quarantine (lines 1932-1949)
  else if (match cfg, quarSeverityTruthy quarRes with
      | some c, some s => sevRuleBlocks c s
      | _, _ => false : Bool) then
    some { final_decision := "BLOCKED", blocked_at := some "severity_rule_quarantine",
           safe_to_use := false }
  -- output-use severity rule after quarantine (lines 1951-1966)
  else if (match cfg, quarSeverityTruthy quarRes with
      | some c, some s => !(sevRuleAllowOutputUse c s)
      | _, _ => false : Bool) then
    some { final_decision := "BLOCKED", blocked_at := some "severity_rule_quarantine",
           safe_to_use := false }
  -- quarantine error: fail-open with warning (lines 1968-1983)
  else if quarDecision quarRes == "ERROR" then
    some { final_decision := "ALLOWED_WITH_WARNING", safe_to_use := true,
           warning := some "Quarantine analysis failed" }
  -- explicit LLM BLOCK (lines 1985-2003)
  else if (match llmRes with | some l => l.decision == "BLOCK" | none => false : Bool) then
    some { final_decision := "BLOCKED", blocked_at := some "llm_analysis",
           final_score := some ((llmRes.bind (·.score)).getD 0),
           safe_to_use := false }
  -- explicit quarantine BLOCK (lines 2005-2020)
  else if quarDecision quarRes == "BLOCK" then
    some { final_decision := "BLOCKED", blocked_at := some "quarantine_analysis",
           final_score := some (match quarRes with | .real q => q.score | _ => 0),
           safe_to_use := false }
  else
    -- fusion (lines 2022-2131), output-restriction override
    -- (lines 2133-2139) and response assembly (lines 2142-2158)
    match fusionStep cfg llmRes quarRes inputScore with
    | none => none
    | some fo =>
      let fo2 : FusionOut :=
        if (match cfg with
            | some c => (checkOutputRestriction c functionName).cannot_trigger_functions &&
                optTruthy targetFunction
            | none => false : Bool) then
          { fo with final_decision := "BLOCKED", blocked_at := some "output_restriction" }
        else fo
      some { final_decision := fo2.final_decision,
             final_score := fo2.final_score,
             blocked_at := fo2.blocked_at,
             safe_to_use := fo2.final_decision == "ALLOWED" }

/-- The tail of `GuardPipeline.analyze` from the LLM policy-violation gate
onward (pipeline.py lines 1736-2158), over the input-stage result and the
LLM stage result computed by the earlier stages; builds the quarantine
stage value (pipeline.py lines 1880-1910) and hands over to
`analyzeQuarTail`. -/
def analyzeLLMTail (cfg : Option Config)
    (enableQuarantine clientAvailable : Bool) (functionName : String)
    (targetFunction : Option String)
    (inputAnalysis llmAnalysis quarantineAnalysis : Bool)
    (inputRes : InputResult) (llmRes : Option LLMResult) (inputScore : ℚ)
    (quarOracle : QuarResult) : Option Response :=
  -- policy violation gate (lines 1736-1750)
  if (match llmRes with | some l => !l.policy_violations.isEmpty | none => false : Bool) then
    some { final_decision := "BLOCKED", blocked_at := some "llm_analysis",
           safe_to_use := false }
  -- LLM BLOCK combined with a blocking severity rule (lines 1752-1770)
  else if (match llmRes, cfg with
      | some l, some c => l.decision == "BLOCK" && optTruthy l.severity &&
          sevRuleBlocks c (l.severity.getD "")
      | _, _ => false : Bool) then
    some { final_decision := "BLOCKED", blocked_at := some "severity_rule_llm_analysis",
           safe_to_use := false }
  -- LLM-only path (lines 1776-1853)
  else if llmAnalysis && !quarantineAnalysis then
    match llmRes with
    | none => none
    | some l =>
      if l.hasError then
        some { final_decision := "ALLOWED", safe_to_use := true,
               warning := some "LLM analysis failed, proceeding with input analysis only" }
      else
        let dec : String :=
          if !l.policy_violations.isEmpty then "BLOCKED"
          else if l.decision == "BLOCK" then "BLOCKED"
          else if !l.threats_found.isEmpty then
            (if (match cfg with
                 | some c => sevRuleBlocks c (l.severity.getD "safe")
                 | none => false : Bool) then "BLOCKED" else "ALLOWED")
          else "ALLOWED"
        some { final_decision := dec,
               final_score := some (l.score.getD 0),
               blocked_at := if dec == "ALLOWED" then none else some "llm_analysis",
               safe_to_use := dec == "ALLOWED" }
  -- input-BLOCK re-check (lines 1856-1877); unreachable because the
  -- input BLOCK return above already fired, transcribed for fidelity
  else if inputAnalysis && inputRes.decision == "BLOCK" && !llmAnalysis &&
      !quarantineAnalysis &&
      (match cfg with | some c => sevRuleBlocks c inputRes.severity | none => false : Bool) then
    some { final_decision := "BLOCKED", blocked_at := some "input_analysis",
           safe_to_use := false }
  else
    -- quarantine stage (lines 1880-1910)
    let quarRes : QuarOut :=
      if quarantineAnalysis && enableQuarantine then
        (if clientAvailable then .real quarOracle else .notEnabled)
      else .sentinel
    analyzeQuarTail cfg functionName targetFunction llmAnalysis llmRes quarRes inputScore

/-- Embeds `GuardPipeline.analyze` (pipeline.py lines 1489-2158).  Stage
behaviour that depends on external ports is supplied as oracles:
`inputScore` is the classifier combined score, `llmO1`/`llmO2`/`llmO3` are
the analyst completion outcomes, and `quarOracle` is the dict returned by
`_analyze_quarantine` when it runs with a client available.  `none` models
a run that raises. -/
def analyze
    (cfg : Option Config)
    (inputBlockThreshold : ℚ)
    (enableQuarantine clientAvailable : Bool)
    (functionName resultText : String)
    (userRole targetFunction : Option String)
    (inputAnalysis llmAnalysis quarantineAnalysis quickAnalysis enableKeywordDetection : Bool)
    (keywords : Option (List String))
    (inputScore : ℚ)
    (llmO1 llmO2 : CompleterOutcome) (llmO3 : PlainOutcome)
    (quarOracle : QuarResult) : Option Response :=
  -- RBAC check (lines 1542-1555)
  if (match cfg, userRole with
      | some c, some r => optTruthy (some r) && !(checkRolePermission c r functionName)
      | _, _ => false : Bool) then
    some { final_decision := "BLOCKED", blocked_at := some "rbac", safe_to_use := false }
  -- Function chaining check (lines 1558-1571)
  else if (match cfg, targetFunction with
      | some c, some t => optTruthy (some t) && !(checkFunctionChaining c functionName t)
      | _, _ => false : Bool) then
    some { final_decision := "BLOCKED", blocked_at := some "function_chaining",
           safe_to_use := false }
  else
    -- keyword detection (lines 1574-1578)
    let keywordRes : Option KeywordDetection :=
      if enableKeywordDetection then some (detectKeywords resultText keywords) else none
    -- input analysis, with the disabled-stage pass dict (lines 1581-1595)
    let inputRes : InputResult :=
      if inputAnalysis then analyzeInput inputBlockThreshold inputScore
      else { decision := "PASS", score := 0, severity := "safe" }
    -- severity rule after input analysis (lines 1598-1614)
    if (match cfg with
        | some c => inputAnalysis && sevRuleBlocks c inputRes.severity
        | none => false : Bool) then
      some { final_decision := "BLOCKED", blocked_at := some "severity_rule_input",
             safe_to_use := false }
    -- output restrictions on the input severity (lines 1617-1638)
    else if (match cfg with
        | some c => inputAnalysis &&
            (match (checkOutputRestriction c functionName).max_severity_allowed with
             | some m => optTruthy (some m) &&
                 decide (severityOrderLevel (strToLower inputRes.severity) >
                   severityOrderLevel (strToLower m))
             | none => false)
        | none => false : Bool) then
      some { final_decision := "BLOCKED", blocked_at := some "output_restriction",
             safe_to_use := false }
    -- context rules (lines 1640-1660)
    else if (match cfg with
        | some c => inputAnalysis &&
            ((evaluateContextRules c functionName resultText inputRes.severity).map
              (·.block)).getD false
        | none => false : Bool) then
      some { final_decision := "BLOCKED", blocked_at := some "context_rule",
             safe_to_use := false }
    -- input analysis BLOCK short-circuit (lines 1663-1676)
    else if inputAnalysis && inputRes.decision == "BLOCK" then
      some { final_decision := "BLOCKED", blocked_at := some "input_analysis",
             safe_to_use := false }
    -- keyword gate (lines 1679-1698)
    else if (match keywordRes with
        | some kr => enableKeywordDetection && kr.detected &&
            (kr.severity == "high" || kr.severity == "critical" ||
              decide (kr.risk_score ≥ 0.7))
        | none => false : Bool) then
      some { final_decision := "BLOCKED", blocked_at := some "keyword_detection",
             safe_to_use := false }
    else
      -- LLM analysis stage with auto-enable (lines 1700-1734); the agent is
      -- invoked exactly when a client is available, otherwise the
      -- not-available error dict is used
      let llmRes : Option LLMResult :=
        if llmAnalysis then
          some (if clientAvailable then
                  analyzeWithLLMAgent true true quickAnalysis llmO1 llmO2 llmO3
                else
                  { decision := "ERROR",
                    reason := "LLM analysis requested but LLM agent is not available.",
                    hasError := true })
        else none
      analyzeLLMTail cfg enableQuarantine clientAvailable functionName targetFunction
        inputAnalysis llmAnalysis quarantineAnalysis inputRes llmRes inputScore quarOracle

/-!  ## Policy repository (`database/repositories/policy_repository.py`)  -/

/-- JSON values as stored in the policy JSON columns; objects are ordered
association lists, as Python dicts iterate in insertion order. -/
inductive JVal where
  | str (s : String)
  | num (q : ℚ)
  | bool (b : Bool)
  | null
  | arr (l : List JVal)
  | dict (d : List (String × JVal))
  deriving Repr

/-- Replace the value at the first occurrence of a key (Python
`result[key] = value` for a present key keeps the position). -/
def setKey : List (String × JVal) → String → JVal → List (String × JVal)
  | [], _, _ => []
  | (k, v) :: rest, key, newV =>
    if k = key then (k, newV) :: rest else (k, v) :: setKey rest key newV

mutual

/-- Embeds `PolicyRepository._deep_merge_dict` (policy_repository.py lines
161-186): a Python-falsy (empty) operand short-circuits (`.copy()` is
identity in a value model), otherwise the new dict is folded in key by key. -/
def deepMergeDict (old new : List (String × JVal)) : List (String × JVal) :=
  if old.isEmpty then new
  else if new.isEmpty then old
  else mergeLoop old new
termination_by 2 * sizeOf new + 1

/-- The `for key, value in new_dict.items()` loop of `_deep_merge_dict`. -/
def mergeLoop (r : List (String × JVal)) : List (String × JVal) → List (String × JVal)
  | [] => r
  | (k, v) :: rest => mergeLoop (mergeStep r k v) rest
termination_by l => 2 * sizeOf l

/-- One iteration of the merge loop: recurse when both the present value and
the new value are dicts, otherwise replace or append. -/
def mergeStep (r : List (String × JVal)) (k : String) (v : JVal) : List (String × JVal) :=
  match alookup r k, v with
  | some (.dict d), .dict d2 => setKey r k (.dict (deepMergeDict d d2))
  | some _, _ => setKey r k v
  | none, _ => r ++ [(k, v)]
termination_by 2 * sizeOf v + 2

end

mutual

/-- Well-formedness of a JSON value coming from a Python object: every dict
has pairwise-distinct keys (Python dicts cannot repeat keys).  Arrays need no
constraint, the merge never descends into them. -/
def wfVal : JVal → Bool
  | .dict d => wfDict d
  | _ => true

/-- Well-formedness of a dict: no key occurs twice and all values are
well-formed. -/
def wfDict : List (String × JVal) → Bool
  | [] => true
  | (k, _v) :: rest => !(rest.any (fun p => p.1 == k)) && wfVal _v && wfDict rest

end

/-- The value stored at a key by one `mergeStep`, as a function of the
previously stored value: recursive merge when both are dicts, else the new
value. -/
def mergedValueOf (oldv : Option JVal) (v : JVal) : JVal :=
  match oldv, v with
  | some (.dict d), .dict d2 => .dict (deepMergeDict d d2)
  | _, _ => v

/-- A stored policy row restricted to the fields of the per-owner default
invariant (`GovernancePolicy.id`, `owner_id`, `is_default`). -/
structure PolicyRow where
  pid : Nat
  owner : String
  is_default : Bool
  deriving Repr, DecidableEq

/-- The bulk `UPDATE` of `PolicyRepository.create` (lines 32-36): clear
`is_default` on this owner's policies. -/
def clearOwnerDefaults (store : List PolicyRow) (owner : String) : List PolicyRow :=
  store.map (fun p =>
    if p.owner == owner && p.is_default then { p with is_default := false } else p)

/-- Embeds `PolicyRepository.create` (lines 13-72) restricted to the
default-flag state: clear this owner's defaults when the new policy is
default, then insert the new row. -/
def createPolicy (store : List PolicyRow) (pid : Nat) (owner : String) (isDefault : Bool) :
    List PolicyRow :=
  (if isDefault then clearOwnerDefaults store owner else store) ++ [⟨pid, owner, isDefault⟩]

/-- Embeds the `is_default` handling of `PolicyRepository.update` (lines
359-368): a missing policy id returns the store unchanged; setting the flag
true first clears `is_default` on every other policy (the source filter is
not owner-scoped), then the addressed policy gets the new flag. -/
def updatePolicyDefault (store : List PolicyRow) (pid : Nat) (isDefault : Option Bool) :
    List PolicyRow :=
  if store.any (fun p => p.pid == pid) then
    match isDefault with
    | none => store
    | some b =>
      let cleared := if b then
          store.map (fun p =>
            if p.is_default && p.pid != pid then { p with is_default := false } else p)
        else store
      cleared.map (fun p => if p.pid == pid then { p with is_default := b } else p)
  else store

/-- Embeds `PolicyRepository.delete` (lines 374-383) restricted to the
default-flag state. -/
def deletePolicy (store : List PolicyRow) (pid : Nat) : List PolicyRow :=
  store.filter (fun p => p.pid != pid)

/-- Invariant P2: at most one stored policy per owner has `is_default`. -/
def atMostOneDefaultPerOwner (store : List PolicyRow) : Prop :=
  ∀ owner : String, store.countP (fun p => p.owner == owner && p.is_default) ≤ 1

/-- A policy row state restricted to the JSON columns that
`PolicyRepository.update` patches: the seven deep-merged dict columns and the
wholesale-replaced `context_rules` column; `none` models SQL `NULL`. -/
structure PolicyDictState where
  roles : Option (List (String × JVal)) := none
  functions : Option (List (String × JVal)) := none
  severity_rules : Option (List (String × JVal)) := none
  output_restrictions : Option (List (String × JVal)) := none
  function_chaining : Option (List (String × JVal)) := none
  decision_thresholds : Option (List (String × JVal)) := none
  custom_prompts : Option (List (String × JVal)) := none
  context_rules : Option (List JVal) := none
  deriving Repr

/-- An update patch for `PolicyRepository.update` (a `none` field is an
argument left at its `None` default). -/
structure PolicyPatch where
  roles : Option (List (String × JVal)) := none
  functions : Option (List (String × JVal)) := none
  severity_rules : Option (List (String × JVal)) := none
  output_restrictions : Option (List (String × JVal)) := none
  function_chaining : Option (List (String × JVal)) := none
  decision_thresholds : Option (List (String × JVal)) := none
  custom_prompts : Option (List (String × JVal)) := none
  context_rules : Option (List JVal) := none
  deriving Repr

/-- One dict-column update of `PolicyRepository.update` (e.g. lines 244-256
for `roles`): with a provided patch, deep-merge when `merge_nested` holds and
the current value is truthy (not `NULL`, not empty), else replace. -/
def updDictField (mergeNested : Bool) (cur patch : Option (List (String × JVal))) :
    Option (List (String × JVal)) :=
  match patch with
  | none => cur
  | some d =>
    if mergeNested && !(cur.getD []).isEmpty then some (deepMergeDict (cur.getD []) d)
    else some d

/-- Embeds the JSON-column writes of `PolicyRepository.update` (lines
188-372): the seven dict columns via `updDictField`, `context_rules`
replaced wholesale (lines 315-323). -/
def updatePolicyDicts (mergeNested : Bool) (s : PolicyDictState) (patch : PolicyPatch) :
    PolicyDictState :=
  { roles := updDictField mergeNested s.roles patch.roles
    functions := updDictField mergeNested s.functions patch.functions
    severity_rules := updDictField mergeNested s.severity_rules patch.severity_rules
    output_restrictions := updDictField mergeNested s.output_restrictions patch.output_restrictions
    function_chaining := updDictField mergeNested s.function_chaining patch.function_chaining
    decision_thresholds := updDictField mergeNested s.decision_thresholds patch.decision_thresholds
    custom_prompts := updDictField mergeNested s.custom_prompts patch.custom_prompts
    context_rules := match patch.context_rules with
      | none => s.context_rules
      | some l => some l }

/-- Well-formedness of an update patch: every provided dict column is a
well-formed Python dict. -/
def patchWF (patch : PolicyPatch) : Prop :=
  (∀ d, patch.roles = some d → wfDict d) ∧
  (∀ d, patch.functions = some d → wfDict d) ∧
  (∀ d, patch.severity_rules = some d → wfDict d) ∧
  (∀ d, patch.output_restrictions = some d → wfDict d) ∧
  (∀ d, patch.function_chaining = some d → wfDict d) ∧
  (∀ d, patch.decision_thresholds = some d → wfDict d) ∧
  (∀ d, patch.custom_prompts = some d → wfDict d)

/-- The running max-severity of the fusion block (pipeline.py lines
2076-2080 and 2101-2105) when both the LLM-analyst dict and a real
quarantine dict are present: starts at `"safe"`, raised first by the LLM
severity and then by the quarantine severity, lower-cased, per the
severity ordering. -/
def fusionMaxSeverity (l : LLMResult) (q : QuarResult) : String :=
  let lsev := strToLower (l.severity.getD "safe")
  let maxSev1 := if severityOrderLevel lsev > severityOrderLevel "safe" then lsev else "safe"
  let qsev := strToLower q.severity
  if severityOrderLevel qsev > severityOrderLevel maxSev1 then qsev else maxSev1

/-!  ## Spec-side definitions and concrete instances used by the claims  -/

/-- Written from the claim text of C4 (the original claim): compute
`final_score` as the maximum over the available stage scores and decide by
thresholds, with severity fallback between them. -/
def fusionSpecClaim (blockThreshold allowThreshold : ℚ) (useSeverityFallback sevBlocksMax : Bool)
    (stageScores : List ℚ) : String :=
  let finalScore := stageScores.foldl max 0
  if finalScore ≥ blockThreshold then "BLOCKED"
  else if finalScore < allowThreshold then "ALLOWED"
  else if useSeverityFallback then (if sevBlocksMax then "BLOCKED" else "ALLOWED")
  else if finalScore ≥ (blockThreshold + allowThreshold) / 2 then "BLOCKED"
  else "ALLOWED"

/-- The five default severity rules installed by `Config._validate_config` /
`PolicyRepository.create` (config.py lines 64-70), used to build the concrete
policies below the way a loaded policy has them. -/
def defaultSeverityRulesList : List (String × SevRule) :=
  [("safe", { allow_function_calls := some true, allow_output_use := some true,
              block := some false }),
   ("low", { allow_function_calls := some true, allow_output_use := some true,
             block := some false }),
   ("medium", { allow_function_calls := some false, allow_output_use := some true,
                block := some false }),
   ("high", { allow_function_calls := some false, allow_output_use := some false,
              block := some true }),
   ("critical", { allow_function_calls := some false, allow_output_use := some false,
                  block := some true })]

/-- The five severity names, in order. -/
def severityNames : List String := ["safe", "low", "medium", "high", "critical"]

/-- Concrete policy for the C3 counterexample: the role `guest` appears only
in the function's `allowed_roles`, not as a key of `roles`. -/
def cfgC3 : Config :=
  { roles := []
    functions := [("send_mail", { allowed_roles := ["guest"] })]
    severity_rules := defaultSeverityRulesList }

/-- Concrete policy for the C6 counterexample: one context rule whose
severity condition is written with an `=` comparator. -/
def cfgC6 : Config :=
  { roles := [], functions := []
    severity_rules := defaultSeverityRulesList
    context_rules := [{ function := some "get_mail"
                        condition := { severity := some "=high" }
                        action := { block := true, reason := some "matched" } }] }

/-- Concrete policy for the C1 counterexample and the C1/C4 witnesses:
default severity rules only. -/
def cfgPlain : Config :=
  { roles := [], functions := [], severity_rules := defaultSeverityRulesList }

/-- Concrete policy for the C4 counterexample: thresholds
`block_threshold = 0.4`, `allow_threshold = 0.3`. -/
def cfgC4 : Config :=
  { roles := [], functions := [], severity_rules := defaultSeverityRulesList
    decision_thresholds := some { block_threshold := some 0.4, allow_threshold := some 0.3 } }

/-- Concrete stored policy state for the C9 witness. -/
def policyStateC9 : PolicyDictState :=
  { roles := some [("admin", .dict [("permissions", .arr [.str "*"])])] }

/-- Concrete update patch for the C9 witness. -/
def policyPatchC9 : PolicyPatch :=
  { roles := some [("admin", .dict [("permissions", .arr [.str "exec"]),
                                    ("description", .str "ops")]),
                   ("guest", .dict [("permissions", .arr [])])]
    context_rules := some [.dict [("function", .str "send_mail")]] }

/-!  ## Theorems for the claims  -/

section

/- Batteries marks the `Rat` arithmetic kernels `@[irreducible]` for
elaboration performance; concrete evaluations below need them unfolded. -/
attribute [local semireducible] Rat.ofScientific Rat.add Rat.mul Rat.sub Rat.inv

/-- C3 (amended): `check_role_permission(role, fn)` returns true iff `role`
is a key of the policy's `roles` mapping AND (its permissions contain `"*"`
or `fn`, or `fn`'s `allowed_roles` contain `role`).  In particular a role
that appears only in a function's `allowed_roles` and not as a `roles` key
is denied. -/
theorem c3_role_permission_characterisation (c : Config) (role functionName : String) :
    checkRolePermission c role functionName = true ↔
      ∃ roleCfg, alookup c.roles role = some roleCfg ∧
        (roleCfg.permissions.contains "*" = true ∨
         roleCfg.permissions.contains functionName = true ∨
         ∃ funcCfg, alookup c.functions functionName = some funcCfg ∧
           funcCfg.allowed_roles.contains role = true) := by
  unfold checkRolePermission
  cases h1 : alookup c.roles role with
  | none => simp
  | some rc =>
    cases h2 : alookup c.functions functionName with
    | none =>
      dsimp only
      split_ifs with hs hf <;> simp_all
    | some fc =>
      dsimp only
      split_ifs with hs hf <;> simp_all

/-- C3 counterexample: with `roles = {}` and
`functions = {"send_mail": {"allowed_roles": ["guest"]}}`, the claim
predicts `role_permits("guest", "send_mail") = true`, but the code returns
false because `guest` is not a key of `roles`. -/
theorem c3_counterexample :
    checkRolePermission cfgC3 "guest" "send_mail" = false ∧
      (alookup cfgC3.functions "send_mail").map (fun fc => fc.allowed_roles.contains "guest")
        = some true := by
  exact ⟨rfl, rfl⟩

/-- C6 (amended): only the comparators `>=`, `>`, `<=`, `<` are parsed and
evaluated over the severity ordering; any other condition string — including
one written `"=high"` — is compared verbatim (case-insensitively) with the
severity name, so an `=`-prefixed condition matches no severity and a bare
severity name matches exactly itself. -/
theorem c6_severity_comparator_parsing (t s : String)
    (ht : t ∈ severityNames) (hs : s ∈ severityNames) :
    (severityCondMatches (">=" ++ t) s (severityOrderLevel s)
        = decide (severityOrderLevel s ≥ severityOrderLevel t)) ∧
    (severityCondMatches (">" ++ t) s (severityOrderLevel s)
        = decide (severityOrderLevel s > severityOrderLevel t)) ∧
    (severityCondMatches ("<=" ++ t) s (severityOrderLevel s)
        = decide (severityOrderLevel s ≤ severityOrderLevel t)) ∧
    (severityCondMatches ("<" ++ t) s (severityOrderLevel s)
        = decide (severityOrderLevel s < severityOrderLevel t)) ∧
    (severityCondMatches ("=" ++ t) s (severityOrderLevel s) = false) ∧
    (severityCondMatches t s (severityOrderLevel s) = decide (s = t)) := by
  fin_cases ht <;> fin_cases hs <;> decide

/-- C6 witness: the amended comparator semantics at `">=high"` against
severity `medium`. -/
theorem c6_witness :
    severityCondMatches (">=" ++ "high") "medium" (severityOrderLevel "medium")
      = decide (severityOrderLevel "medium" ≥ severityOrderLevel "high") :=
  (c6_severity_comparator_parsing "high" "medium" (by decide) (by decide)).1

/-- C6 counterexample: a context rule conditioned on severity `"=high"` does
not fire at severity `high` (the claim predicts it matches exactly `high`);
the `=` spelling is compared verbatim and can never equal a severity name. -/
theorem c6_counterexample :
    evaluateContextRules cfgC6 "get_mail" "payload" "high" = none ∧
      severityCondMatches "=high" "high" (severityOrderLevel "high") = false := by
  exact ⟨rfl, rfl⟩

/-- C2 (code bug): at the failing input — quarantine probe run by `analyze`
with `user_query = "Summarize this email"` and no chaining configuration —
the Phase-1 user content is the generic preamble followed by the serialised
result; the request's user query is dropped because `analyze` passes it
positionally into the probe's `function_args` parameter.  The claim (and the
probe's own docstring) prescribe the user query followed by two newlines and
the serialised result. -/
theorem c2_phase1_prompt_at_failing_input :
    orchestratorStage1UserContent (some "Summarize this email") none "DATA"
        = "Please help me understand this information:\n\nDATA" ∧
      orchestratorStage1UserContent (some "Summarize this email") none "DATA"
        ≠ "Summarize this email" ++ "\n\n" ++ "DATA" := by
  refine ⟨rfl, by decide⟩

/-- C5 (amended): a timeout at any rung of the analyst fallback ladder
returns a structured ERROR with score 0.0 and a reason; a caught non-timeout
(transport/schema) failure steps down the ladder, and when the final plain
fallback succeeds the stage returns ALLOW with score 0.0 and an error note —
but when the plain fallback itself fails with a non-timeout error the stage
returns ERROR with score 1.0, a blocking score. -/
theorem c5_analyst_error_ladder (quickMode : Bool) (o2 : CompleterOutcome)
    (o3 : PlainOutcome) (text : String) :
    ((analyzeWithLLMAgent true true quickMode .timeout o2 o3).decision = "ERROR" ∧
     (analyzeWithLLMAgent true true quickMode .timeout o2 o3).score = some 0 ∧
     (analyzeWithLLMAgent true true quickMode .timeout o2 o3).reason ≠ "") ∧
    ((analyzeWithLLMAgent true true quickMode .caughtErr .timeout o3).decision = "ERROR" ∧
     (analyzeWithLLMAgent true true quickMode .caughtErr .timeout o3).score = some 0 ∧
     (analyzeWithLLMAgent true true quickMode .caughtErr .timeout o3).reason ≠ "") ∧
    ((analyzeWithLLMAgent true true quickMode .caughtErr .caughtErr .timeout).decision
        = "ERROR" ∧
     (analyzeWithLLMAgent true true quickMode .caughtErr .caughtErr .timeout).score = some 0 ∧
     (analyzeWithLLMAgent true true quickMode .caughtErr .caughtErr .timeout).reason ≠ "") ∧
    ((analyzeWithLLMAgent true true quickMode .caughtErr .caughtErr (.ok text)).decision
        = "ALLOW" ∧
     (analyzeWithLLMAgent true true quickMode .caughtErr .caughtErr (.ok text)).score
        = some 0 ∧
     (analyzeWithLLMAgent true true quickMode .caughtErr .caughtErr (.ok text)).hasError
        = true) ∧
    ((analyzeWithLLMAgent true true quickMode .caughtErr .caughtErr .err).decision
        = "ERROR" ∧
     (analyzeWithLLMAgent true true quickMode .caughtErr .caughtErr .err).score = some 1 ∧
     (analyzeWithLLMAgent true true quickMode .caughtErr .caughtErr .err).reason ≠ "") := by
  refine ⟨⟨rfl, rfl, (by decide : llmTimeoutResult.reason ≠ "")⟩,
    ⟨rfl, rfl, (by decide : llmTimeoutResult.reason ≠ "")⟩,
    ⟨rfl, rfl, (by decide : llmFallbackTimeoutResult.reason ≠ "")⟩,
    ⟨rfl, rfl, rfl⟩,
    ⟨rfl, rfl, (by decide : llmTotalFailureResult.reason ≠ "")⟩⟩

/-- C5 counterexample: when every rung fails with a caught non-timeout
(e.g. transport) error, the stage returns ERROR with score 1.0, not 0.0 —
contributing a blocking score. -/
theorem c5_counterexample :
    (analyzeWithLLMAgent true true false .caughtErr .caughtErr .err).decision = "ERROR" ∧
      (analyzeWithLLMAgent true true false .caughtErr .caughtErr .err).score = some 1 ∧
      (analyzeWithLLMAgent true true false .caughtErr .caughtErr .err).score ≠ some 0 := by
  refine ⟨rfl, rfl, by decide⟩

/-- The sequential category-multiplier chain of `keywordScore` computes the
maximum of the set `{1.0, 1.2 if security, 1.3 if action, 1.2 if financial,
1.3 if PII}` named by the claim. -/
theorem keywordScore_eq_maxForm (n : Nat) (s a f p : Bool) :
    keywordScore n s a f p
      = min ((min ((n : ℚ) * 0.1) 0.7) *
          (max (max (max (max 1 (if s then (1.2 : ℚ) else 1)) (if a then 1.3 else 1))
            (if f then 1.2 else 1)) (if p then 1.3 else 1))) 0.95 := by
  unfold keywordScore
  cases s <;> cases a <;> cases f <;> cases p <;> rfl

/-- The keyword risk score is nonnegative. -/
theorem keywordScore_nonneg (n : Nat) (s a f p : Bool) : 0 ≤ keywordScore n s a f p := by
  unfold keywordScore
  cases s <;> cases a <;> cases f <;> cases p <;>
    exact le_min (mul_nonneg (le_min (by positivity) (by norm_num)) (by decide))
      (by norm_num)

/-- The keyword risk score is capped at 0.95. -/
theorem keywordScore_le (n : Nat) (s a f p : Bool) : keywordScore n s a f p ≤ 0.95 := by
  unfold keywordScore
  exact min_le_right _ _

/-- The severity band takes one of four values, never `"critical"`. -/
theorem severityBand_cases (r : ℚ) :
    (severityBand r = "safe" ∨ severityBand r = "low" ∨ severityBand r = "medium" ∨
      severityBand r = "high") ∧ severityBand r ≠ "critical" := by
  unfold severityBand
  split_ifs <;> simp

/-- C7 (confirmed): for every serialised function result and keyword list,
the detector computes `base = min(detected_count x 0.1, 0.7)`, a category
multiplier equal to the max of `{1.0, 1.2 if any security keyword, 1.3 if
any action-triggering keyword, 1.2 if any financial keyword, 1.3 if any PII
keyword}`, `risk_score = min(base x multiplier, 0.95)`, and severity `high`
iff `risk_score ≥ 0.7`, `medium` iff `≥ 0.4`, `low` iff `≥ 0.2`, else
`safe`. -/
theorem c7_keyword_scoring (resultText : String) (keywords : Option (List String)) :
    (detectKeywords resultText keywords).risk_score
      = min ((min (((detectKeywords resultText keywords).keyword_count : ℚ) * 0.1) 0.7) *
          (max (max (max (max 1
            (if (detectKeywords resultText keywords).security ≠ [] then (1.2 : ℚ) else 1))
            (if (detectKeywords resultText keywords).action_triggering ≠ [] then 1.3 else 1))
            (if (detectKeywords resultText keywords).financial ≠ [] then 1.2 else 1))
            (if (detectKeywords resultText keywords).pii ≠ [] then 1.3 else 1))) 0.95 ∧
    (detectKeywords resultText keywords).severity
      = (if (detectKeywords resultText keywords).risk_score ≥ 0.7 then "high"
         else if (detectKeywords resultText keywords).risk_score ≥ 0.4 then "medium"
         else if (detectKeywords resultText keywords).risk_score ≥ 0.2 then "low"
         else "safe") := by
  unfold detectKeywords
  generalize detectedKeywordsOf (strToLower resultText)
    (keywords.getD defaultSensitiveKeywords) = d
  generalize securityBucket d = s
  generalize businessBucket d = b
  generalize actionBucket d = a
  generalize financialBucket d = f
  generalize piiBucket d = p
  constructor
  · unfold buildKeywordDetection
    dsimp only
    rw [keywordScore_eq_maxForm]
    simp only [decide_eq_true_eq, List.length_pos]
  · unfold buildKeywordDetection severityBand
    dsimp only

/-- C10 (confirmed): for every serialised function result and keyword list,
the detector risk score lies in `[0, 0.95]` and the severity is one of
`safe`, `low`, `medium`, `high` — never `critical`, even though the
orchestrator keyword gate at pipeline.py line 1685 also tests for a
`critical` detector severity. -/
theorem c10_keyword_bounds (resultText : String) (keywords : Option (List String)) :
    0 ≤ (detectKeywords resultText keywords).risk_score ∧
    (detectKeywords resultText keywords).risk_score ≤ 0.95 ∧
    ((detectKeywords resultText keywords).severity = "safe" ∨
     (detectKeywords resultText keywords).severity = "low" ∨
     (detectKeywords resultText keywords).severity = "medium" ∨
     (detectKeywords resultText keywords).severity = "high") ∧
    (detectKeywords resultText keywords).severity ≠ "critical" := by
  unfold detectKeywords
  generalize detectedKeywordsOf (strToLower resultText)
    (keywords.getD defaultSensitiveKeywords) = d
  generalize securityBucket d = s
  generalize businessBucket d = b
  generalize actionBucket d = a
  generalize financialBucket d = f
  generalize piiBucket d = p
  unfold buildKeywordDetection
  dsimp only
  refine ⟨keywordScore_nonneg _ _ _ _ _, keywordScore_le _ _ _ _ _,
    (severityBand_cases _).1, (severityBand_cases _).2⟩

/-- Clearing the defaults of an owner leaves that owner with no default. -/
theorem clearOwnerDefaults_countP_self (store : List PolicyRow) (owner : String) :
    (clearOwnerDefaults store owner).countP
      (fun p => p.owner == owner && p.is_default) = 0 := by
  rw [clearOwnerDefaults, List.countP_map, List.countP_eq_zero]
  intro p _
  simp only [Function.comp]
  split_ifs with hcond
  · simp
  · simpa using hcond

/-- Clearing the defaults of one owner does not change the default count of
any other owner. -/
theorem clearOwnerDefaults_countP_other (store : List PolicyRow) (owner owner2 : String)
    (hne : owner2 ≠ owner) :
    (clearOwnerDefaults store owner).countP (fun p => p.owner == owner2 && p.is_default)
      = store.countP (fun p => p.owner == owner2 && p.is_default) := by
  rw [clearOwnerDefaults, List.countP_map]
  apply List.countP_congr
  intro p _
  simp only [Function.comp]
  split_ifs with hcond
  · have h1 : p.owner = owner := by
      have := (Bool.and_eq_true _ _).mp hcond
      exact beq_iff_eq.mp this.1
    have h2 : (p.owner == owner2) = false := by
      rw [h1]
      exact beq_eq_false_iff_ne.mpr (fun h => hne h.symm)
    simp [h2]
  · rfl

/-- With pairwise-distinct policy ids, at most one row matches a given id. -/
theorem countP_pid_le_one (store : List PolicyRow) (hids : (store.map PolicyRow.pid).Nodup)
    (pid : Nat) :
    store.countP (fun p => p.pid == pid) ≤ 1 := by
  have h := List.nodup_iff_count_le_one.mp hids pid
  rw [List.count_eq_countP, List.countP_map] at h
  exact h

/-- C8 (confirmed): the per-owner unique-default invariant is preserved by
`create`, `update` and `delete`: creating a default policy clears the
previous defaults of its owner before the insert, updating a policy to
default clears every other default before commit, and no operation can give
one owner two defaults (policy ids are assumed pairwise distinct, as the
database primary key guarantees). -/
theorem c8_default_invariant_preserved (store : List PolicyRow)
    (h : atMostOneDefaultPerOwner store)
    (hids : (store.map PolicyRow.pid).Nodup)
    (newPid : Nat) (newOwner : String) (newDefault : Bool)
    (updPid : Nat) (updDefault : Option Bool) (delPid : Nat) :
    atMostOneDefaultPerOwner (createPolicy store newPid newOwner newDefault) ∧
    atMostOneDefaultPerOwner (updatePolicyDefault store updPid updDefault) ∧
    atMostOneDefaultPerOwner (deletePolicy store delPid) := by
  refine ⟨?_, ?_, ?_⟩
  · intro owner2
    rw [createPolicy, List.countP_append]
    cases newDefault with
    | false =>
      simp only [if_neg Bool.false_ne_true]
      have : List.countP (fun p => p.owner == owner2 && p.is_default)
          [PolicyRow.mk newPid newOwner false] = 0 := by simp [List.countP_cons]
      rw [this]
      simpa using h owner2
    | true =>
      simp only [if_pos rfl, if_true]
      by_cases howner : owner2 = newOwner
      · subst howner
        rw [clearOwnerDefaults_countP_self]
        simp [List.countP_cons]
      · rw [clearOwnerDefaults_countP_other store newOwner owner2 howner]
        have hrow : List.countP (fun p => p.owner == owner2 && p.is_default)
            [PolicyRow.mk newPid newOwner true] = 0 := by
          simp [List.countP_cons, beq_eq_false_iff_ne.mpr (fun h2 => howner h2.symm)]
        rw [hrow]
        simpa using h owner2
  · intro owner2
    unfold updatePolicyDefault
    split_ifs with hex
    · cases updDefault with
      | none => exact h owner2
      | some b =>
        cases b with
        | false =>
          simp only [if_neg Bool.false_ne_true]
          rw [List.countP_map]
          refine le_trans (List.countP_mono_left ?_) (h owner2)
          intro p _ hp
          simp only [Function.comp] at hp
          split_ifs at hp with hpid
          · simp at hp
          · exact hp
        | true =>
          simp only [if_pos rfl, if_true]
          rw [List.countP_map, List.countP_map]
          refine le_trans (List.countP_mono_left ?_) (countP_pid_le_one store hids updPid)
          intro p _ hp
          simp only [Function.comp] at hp
          by_cases hpid : (p.pid == updPid) = true
          · exact hpid
          · exfalso
            rw [if_neg ?_] at hp
            · split_ifs at hp with hdef
              · simp at hp
              · simp only [Bool.and_eq_true, bne_iff_ne, ne_eq] at hdef
                have : p.is_default = false := by
                  by_cases hd : p.is_default = true
                  · exact absurd ⟨hd, fun he => hpid (beq_iff_eq.mpr he)⟩ hdef
                  · exact Bool.eq_false_iff.mpr hd
                rw [this] at hp
                simp at hp
            · intro hcontra
              split_ifs at hcontra with hdef <;> simp_all
    · exact h owner2
  · intro owner2
    exact le_trans ((List.filter_sublist _).countP_le _) (h owner2)

/-- C8 witness: the invariant preservation applied to a concrete one-row
store. -/
theorem c8_witness :
    atMostOneDefaultPerOwner
      (createPolicy [PolicyRow.mk 1 "alice" true] 2 "alice" true) ∧
    atMostOneDefaultPerOwner
      (updatePolicyDefault [PolicyRow.mk 1 "alice" true] 1 (some true)) ∧
    atMostOneDefaultPerOwner (deletePolicy [PolicyRow.mk 1 "alice" true] 1) :=
  c8_default_invariant_preserved [PolicyRow.mk 1 "alice" true]
    (fun owner2 => by simp [List.countP_cons]; split_ifs <;> omega)
    (by simp)
    2 "alice" true 1 (some true) 1

/-- Lookup distributes over append, preferring the left list. -/
theorem alookup_append {α : Type} (l1 l2 : List (String × α)) (key : String) :
    alookup (l1 ++ l2) key =
      match alookup l1 key with
      | some v => some v
      | none => alookup l2 key := by
  induction l1 with
  | nil => simp [alookup]
  | cons hd tl ih =>
    obtain ⟨k, v⟩ := hd
    by_cases hk : k = key
    · simp [alookup, hk]
    · simp [alookup, hk, ih]

/-- Replacing one key leaves other lookups unchanged. -/
theorem alookup_setKey_ne (r : List (String × JVal)) (k key : String) (v : JVal)
    (hne : key ≠ k) : alookup (setKey r k v) key = alookup r key := by
  induction r with
  | nil => rfl
  | cons hd tl ih =>
    obtain ⟨k0, v0⟩ := hd
    by_cases hk0 : k0 = k
    · subst hk0
      simp [setKey, alookup, hne.symm]
    · simp [setKey, alookup, hk0, ih]

/-- Replacing a present key makes its lookup the new value. -/
theorem alookup_setKey_self (r : List (String × JVal)) (k : String) (v : JVal)
    (h : (alookup r k).isSome) : alookup (setKey r k v) k = some v := by
  induction r with
  | nil => simp [alookup] at h
  | cons hd tl ih =>
    obtain ⟨k0, v0⟩ := hd
    by_cases hk0 : k0 = k
    · subst hk0
      simp [setKey, alookup]
    · simp [setKey, alookup, hk0] at h ⊢
      exact ih h

/-- Rewriting a key to the value it already holds is the identity. -/
theorem setKey_eq_of_alookup (r : List (String × JVal)) (k : String) (v : JVal)
    (h : alookup r k = some v) : setKey r k v = r := by
  induction r with
  | nil => rfl
  | cons hd tl ih =>
    obtain ⟨k0, v0⟩ := hd
    by_cases hk0 : k0 = k
    · subst hk0
      simp [alookup] at h
      simp [setKey, h]
    · simp [alookup, hk0] at h
      simp [setKey, hk0, ih h]

/-- One merge step leaves the lookups of other keys unchanged. -/
theorem alookup_mergeStep_ne (r : List (String × JVal)) (k : String) (v : JVal)
    (key : String) (hne : key ≠ k) :
    alookup (mergeStep r k v) key = alookup r key := by
  unfold mergeStep
  cases halo : alookup r k with
  | none =>
    dsimp only
    rw [alookup_append]
    cases hkey : alookup r key with
    | none => simp [alookup, hne.symm]
    | some w => rfl
  | some w =>
    cases w <;> cases v <;> exact alookup_setKey_ne r k key _ hne

/-- One merge step stores the merged value at its key. -/
theorem alookup_mergeStep_self (r : List (String × JVal)) (k : String) (v : JVal) :
    alookup (mergeStep r k v) k = some (mergedValueOf (alookup r k) v) := by
  unfold mergeStep
  cases halo : alookup r k with
  | none =>
    dsimp only
    rw [alookup_append, halo]
    simp [alookup, mergedValueOf]
  | some w =>
    have hs : (alookup r k).isSome := by rw [halo]; rfl
    cases w <;> cases v <;>
      simp [mergedValueOf, alookup_setKey_self r k _ hs]

/-- The merge loop leaves the lookups of keys it does not process unchanged. -/
theorem alookup_mergeLoop_not_key (l : List (String × JVal)) (key : String)
    (h : ∀ kv ∈ l, kv.1 ≠ key) :
    ∀ r, alookup (mergeLoop r l) key = alookup r key := by
  induction l with
  | nil => intro r; simp [mergeLoop]
  | cons hd tl ih =>
    intro r
    obtain ⟨k, v⟩ := hd
    simp only [mergeLoop]
    rw [ih (fun kv hkv => h kv (List.mem_cons_of_mem _ hkv))]
    exact alookup_mergeStep_ne r k v key (h (k, v) (List.mem_cons_self _ _)).symm

/-- Replacing a key preserves the length. -/
theorem setKey_length (r : List (String × JVal)) (k : String) (v : JVal) :
    (setKey r k v).length = r.length := by
  induction r with
  | nil => rfl
  | cons hd tl ih =>
    obtain ⟨k0, v0⟩ := hd
    by_cases h : k0 = k <;> simp [setKey, h, ih]

/-- A merge step never shrinks the dict. -/
theorem mergeStep_length_ge (r : List (String × JVal)) (k : String) (v : JVal) :
    r.length ≤ (mergeStep r k v).length := by
  unfold mergeStep
  cases halo : alookup r k with
  | none => dsimp only; simp
  | some w => cases w <;> cases v <;> simp [setKey_length]

/-- The merge loop never shrinks the dict. -/
theorem mergeLoop_length_ge (l : List (String × JVal)) :
    ∀ r, r.length ≤ (mergeLoop r l).length := by
  induction l with
  | nil => intro r; simp [mergeLoop]
  | cons hd tl ih =>
    intro r
    obtain ⟨k, v⟩ := hd
    simp only [mergeLoop]
    exact le_trans (mergeStep_length_ge r k v) (ih _)

/-- Destructs well-formedness of a cons dict. -/
theorem wfDict_cons (k : String) (v : JVal) (rest : List (String × JVal))
    (h : wfDict ((k, v) :: rest) = true) :
    (∀ kv ∈ rest, kv.1 ≠ k) ∧ wfVal v = true ∧ wfDict rest = true := by
  simp only [wfDict, Bool.and_eq_true, Bool.not_eq_true] at h
  obtain ⟨⟨hany, hv⟩, hrest⟩ := h
  refine ⟨?_, hv, hrest⟩
  intro kv hkv hcontra
  have hmem : rest.any (fun p => p.1 == k) = true :=
    List.any_eq_true.mpr ⟨kv, hkv, beq_iff_eq.mpr hcontra⟩
  rw [hmem] at hany
  cases hany

/-- In a well-formed dict, membership determines the lookup. -/
theorem alookup_of_mem_wf (p : List (String × JVal)) (hp : wfDict p = true)
    {k : String} {v : JVal} (hmem : (k, v) ∈ p) : alookup p k = some v := by
  induction p with
  | nil => cases hmem
  | cons hd tl ih =>
    obtain ⟨k0, v0⟩ := hd
    obtain ⟨hknot, _hwv, hwtl⟩ := wfDict_cons k0 v0 tl hp
    rcases List.mem_cons.mp hmem with heq | htl
    · injection heq with h1 h2
      subst h1
      subst h2
      simp [alookup]
    · have hk0 : k0 ≠ k := fun hc => hknot (k, v) htl (hc ▸ rfl)
      simp [alookup, hk0]
      exact ih hwtl htl

/-- In a well-formed dict, every stored value is well-formed. -/
theorem wfVal_of_mem_wf (p : List (String × JVal)) (hp : wfDict p = true)
    {k : String} {v : JVal} (hmem : (k, v) ∈ p) : wfVal v = true := by
  induction p with
  | nil => cases hmem
  | cons hd tl ih =>
    obtain ⟨k0, v0⟩ := hd
    obtain ⟨_hknot, hwv, hwtl⟩ := wfDict_cons k0 v0 tl hp
    rcases List.mem_cons.mp hmem with heq | htl
    · injection heq with h1 h2
      subst h2
      exact hwv
    · exact ih hwtl htl

/-- A nested dict value of a well-formed dict is structurally smaller. -/
theorem sizeOf_dictVal_lt {p : List (String × JVal)} {k : String}
    {d2 : List (String × JVal)} (hmem : (k, JVal.dict d2) ∈ p) :
    sizeOf d2 < sizeOf p := by
  have h := List.sizeOf_lt_of_mem hmem
  simp only [Prod.mk.sizeOf_spec, JVal.dict.sizeOf_spec] at h
  omega

/-- Unfolding equation of `deepMergeDict`. -/
theorem deepMergeDict_eq (old new : List (String × JVal)) :
    deepMergeDict old new =
      if old.isEmpty then new else if new.isEmpty then old else mergeLoop old new := by
  unfold deepMergeDict
  rfl

/-- One merge step over a dict that already stores the processed entry is the
identity, provided merging the entry value with itself is. -/
theorem mergeLoop_fixed (l : List (String × JVal)) (r : List (String × JVal))
    (hmem : ∀ kv ∈ l, alookup r kv.1 = some kv.2)
    (hrec : ∀ k d2, (k, JVal.dict d2) ∈ l → deepMergeDict d2 d2 = d2) :
    mergeLoop r l = r := by
  induction l with
  | nil => simp [mergeLoop]
  | cons hd tl ih =>
    obtain ⟨k, v⟩ := hd
    have h1 : alookup r k = some v := hmem (k, v) (List.mem_cons_self _ _)
    have hstep : mergeStep r k v = r := by
      unfold mergeStep
      rw [h1]
      cases v with
      | dict d2 =>
        dsimp only
        rw [hrec k d2 (List.mem_cons_self _ _)]
        exact setKey_eq_of_alookup r k _ h1
      | str s => exact setKey_eq_of_alookup r k _ h1
      | num q => exact setKey_eq_of_alookup r k _ h1
      | bool b => exact setKey_eq_of_alookup r k _ h1
      | null => exact setKey_eq_of_alookup r k _ h1
      | arr a => exact setKey_eq_of_alookup r k _ h1
    simp only [mergeLoop]
    rw [hstep]
    exact ih (fun kv hkv => hmem kv (List.mem_cons_of_mem _ hkv))
      (fun k2 d2 h2 => hrec k2 d2 (List.mem_cons_of_mem _ h2))

/-- A merge step applied to a dict that already stores the merged value of
its entry is the identity, given idempotence of the nested merges. -/
theorem mergeStep_absorb (M r : List (String × JVal)) (k : String) (v : JVal)
    (hM : alookup M k = some (mergedValueOf (alookup r k) v))
    (hidem1 : ∀ d d2, v = JVal.dict d2 → alookup r k = some (JVal.dict d) →
      deepMergeDict (deepMergeDict d d2) d2 = deepMergeDict d d2)
    (hidem2 : ∀ d2, v = JVal.dict d2 → deepMergeDict d2 d2 = d2) :
    mergeStep M k v = M := by
  unfold mergeStep
  rw [hM]
  cases halo : alookup r k with
  | none =>
    rw [halo] at hM
    cases v with
    | dict d2 =>
      dsimp only [mergedValueOf] at hM ⊢
      rw [hidem2 d2 rfl]
      exact setKey_eq_of_alookup M k _ hM
    | str s => exact setKey_eq_of_alookup M k _ hM
    | num q => exact setKey_eq_of_alookup M k _ hM
    | bool b => exact setKey_eq_of_alookup M k _ hM
    | null => exact setKey_eq_of_alookup M k _ hM
    | arr a => exact setKey_eq_of_alookup M k _ hM
  | some w =>
    rw [halo] at hM
    cases w with
    | dict d =>
      cases v with
      | dict d2 =>
        dsimp only [mergedValueOf] at hM ⊢
        rw [hidem1 d d2 rfl halo]
        exact setKey_eq_of_alookup M k _ hM
      | str s => exact setKey_eq_of_alookup M k _ hM
      | num q => exact setKey_eq_of_alookup M k _ hM
      | bool b => exact setKey_eq_of_alookup M k _ hM
      | null => exact setKey_eq_of_alookup M k _ hM
      | arr a => exact setKey_eq_of_alookup M k _ hM
    | str s2 =>
      cases v with
      | dict d2 =>
        dsimp only [mergedValueOf] at hM ⊢
        rw [hidem2 d2 rfl]
        exact setKey_eq_of_alookup M k _ hM
      | str s => exact setKey_eq_of_alookup M k _ hM
      | num q => exact setKey_eq_of_alookup M k _ hM
      | bool b => exact setKey_eq_of_alookup M k _ hM
      | null => exact setKey_eq_of_alookup M k _ hM
      | arr a => exact setKey_eq_of_alookup M k _ hM
    | num q2 =>
      cases v with
      | dict d2 =>
        dsimp only [mergedValueOf] at hM ⊢
        rw [hidem2 d2 rfl]
        exact setKey_eq_of_alookup M k _ hM
      | str s => exact setKey_eq_of_alookup M k _ hM
      | num q => exact setKey_eq_of_alookup M k _ hM
      | bool b => exact setKey_eq_of_alookup M k _ hM
      | null => exact setKey_eq_of_alookup M k _ hM
      | arr a => exact setKey_eq_of_alookup M k _ hM
    | bool b2 =>
      cases v with
      | dict d2 =>
        dsimp only [mergedValueOf] at hM ⊢
        rw [hidem2 d2 rfl]
        exact setKey_eq_of_alookup M k _ hM
      | str s => exact setKey_eq_of_alookup M k _ hM
      | num q => exact setKey_eq_of_alookup M k _ hM
      | bool b => exact setKey_eq_of_alookup M k _ hM
      | null => exact setKey_eq_of_alookup M k _ hM
      | arr a => exact setKey_eq_of_alookup M k _ hM
    | null =>
      cases v with
      | dict d2 =>
        dsimp only [mergedValueOf] at hM ⊢
        rw [hidem2 d2 rfl]
        exact setKey_eq_of_alookup M k _ hM
      | str s => exact setKey_eq_of_alookup M k _ hM
      | num q => exact setKey_eq_of_alookup M k _ hM
      | bool b => exact setKey_eq_of_alookup M k _ hM
      | null => exact setKey_eq_of_alookup M k _ hM
      | arr a => exact setKey_eq_of_alookup M k _ hM
    | arr a2 =>
      cases v with
      | dict d2 =>
        dsimp only [mergedValueOf] at hM ⊢
        rw [hidem2 d2 rfl]
        exact setKey_eq_of_alookup M k _ hM
      | str s => exact setKey_eq_of_alookup M k _ hM
      | num q => exact setKey_eq_of_alookup M k _ hM
      | bool b => exact setKey_eq_of_alookup M k _ hM
      | null => exact setKey_eq_of_alookup M k _ hM
      | arr a => exact setKey_eq_of_alookup M k _ hM

/-- Running the merge loop a second time over its own output is the
identity, for a patch with pairwise-distinct keys and given idempotence of
the nested merges of its dict values. -/
theorem mergeLoop_idem (l : List (String × JVal)) (hl : wfDict l = true)
    (hidem1 : ∀ k d d2, (k, JVal.dict d2) ∈ l →
      deepMergeDict (deepMergeDict d d2) d2 = deepMergeDict d d2)
    (hidem2 : ∀ k d2, (k, JVal.dict d2) ∈ l → deepMergeDict d2 d2 = d2) :
    ∀ r, mergeLoop (mergeLoop r l) l = mergeLoop r l := by
  induction l with
  | nil => intro r; simp [mergeLoop]
  | cons hd tl ih =>
    intro r
    obtain ⟨k, v⟩ := hd
    obtain ⟨hknot, _hwv, hwtl⟩ := wfDict_cons k v tl hl
    simp only [mergeLoop]
    have hlookM : alookup (mergeLoop (mergeStep r k v) tl) k
        = alookup (mergeStep r k v) k :=
      alookup_mergeLoop_not_key tl k (fun kv hkv => hknot kv hkv) (mergeStep r k v)
    have hM : alookup (mergeLoop (mergeStep r k v) tl) k
        = some (mergedValueOf (alookup r k) v) := by
      rw [hlookM]
      exact alookup_mergeStep_self r k v
    have hstep : mergeStep (mergeLoop (mergeStep r k v) tl) k v
        = mergeLoop (mergeStep r k v) tl := by
      refine mergeStep_absorb _ r k v hM ?_ ?_
      · intro d d2 hv _
        subst hv
        exact hidem1 k d d2 (List.mem_cons_self _ _)
      · intro d2 hv
        subst hv
        exact hidem2 k d2 (List.mem_cons_self _ _)
    rw [hstep]
    exact ih hwtl
      (fun k2 d d2 h2 => hidem1 k2 d d2 (List.mem_cons_of_mem _ h2))
      (fun k2 d2 h2 => hidem2 k2 d2 (List.mem_cons_of_mem _ h2))
      (mergeStep r k v)

/-- C9 core: `_deep_merge_dict` is idempotent in its patch — merging the
same well-formed patch twice equals merging it once. -/
theorem deepMergeDict_idem (p : List (String × JVal)) (hp : wfDict p = true) :
    ∀ o, deepMergeDict (deepMergeDict o p) p = deepMergeDict o p := by
  have hrec1 : ∀ k d2, (k, JVal.dict d2) ∈ p →
      ∀ d, deepMergeDict (deepMergeDict d d2) d2 = deepMergeDict d d2 := by
    intro k d2 hmem d
    have hlt : sizeOf d2 < sizeOf p := sizeOf_dictVal_lt hmem
    have hw : wfDict d2 = true := by
      have hv := wfVal_of_mem_wf p hp hmem
      simpa [wfVal] using hv
    exact deepMergeDict_idem d2 hw d
  have hrec2 : ∀ k d2, (k, JVal.dict d2) ∈ p → deepMergeDict d2 d2 = d2 := by
    intro k d2 hmem
    have h0 : deepMergeDict ([] : List (String × JVal)) d2 = d2 := by
      rw [deepMergeDict_eq]
      simp
    have h1 := hrec1 k d2 hmem []
    rwa [h0] at h1
  intro o
  by_cases ho : o.isEmpty = true
  · have h1 : deepMergeDict o p = p := by rw [deepMergeDict_eq, if_pos ho]
    rw [h1]
    by_cases hpe : p.isEmpty = true
    · rw [deepMergeDict_eq, if_pos hpe]
    · have hpf : p.isEmpty = false := eq_false_of_ne_true hpe
      rw [deepMergeDict_eq]
      simp only [hpf, Bool.false_eq_true, if_false]
      apply mergeLoop_fixed
      · intro kv hkv
        obtain ⟨k, v⟩ := kv
        exact alookup_of_mem_wf p hp hkv
      · exact fun k d2 hmem => hrec2 k d2 hmem
  · by_cases hpe : p.isEmpty = true
    · have hp0 : p = [] := List.isEmpty_iff.mp hpe
      subst hp0
      have hof : o.isEmpty = false := eq_false_of_ne_true ho
      have h1 : deepMergeDict o ([] : List (String × JVal)) = o := by
        rw [deepMergeDict_eq]
        simp [hof]
      rw [h1, h1]
    · have hof : o.isEmpty = false := eq_false_of_ne_true ho
      have hpf : p.isEmpty = false := eq_false_of_ne_true hpe
      have h1 : deepMergeDict o p = mergeLoop o p := by
        rw [deepMergeDict_eq]
        simp [hof, hpf]
      have hMne : (mergeLoop o p).isEmpty = false := by
        have hlen := mergeLoop_length_ge p o
        cases hM : mergeLoop o p with
        | nil =>
          rw [hM] at hlen
          cases o with
          | nil => simp at hof
          | cons hd2 tl2 => simp at hlen
        | cons hd2 tl2 => rfl
      rw [h1]
      have h2 : deepMergeDict (mergeLoop o p) p = mergeLoop (mergeLoop o p) p := by
        rw [deepMergeDict_eq]
        simp [hMne, hpf]
      rw [h2]
      exact mergeLoop_idem p hp (fun k d d2 hmem => hrec1 k d2 hmem d) hrec2 o
termination_by sizeOf p
decreasing_by exact hlt

/-- Merging into a non-empty dict yields a non-empty dict. -/
theorem deepMergeDict_ne_empty (c d : List (String × JVal)) (hc : c.isEmpty = false) :
    (deepMergeDict c d).isEmpty = false := by
  rw [deepMergeDict_eq]
  simp only [hc, Bool.false_eq_true, if_false]
  by_cases hd : d.isEmpty = true
  · rw [if_pos hd]
    exact hc
  · rw [if_neg hd]
    have hlen := mergeLoop_length_ge d c
    cases hM : mergeLoop c d with
    | nil =>
      rw [hM] at hlen
      cases c with
      | nil => simp at hc
      | cons hd2 tl2 => simp at hlen
    | cons hd2 tl2 => rfl

/-- One dict-column update of `PolicyRepository.update` is idempotent in its
patch. -/
theorem updDictField_idem (mergeNested : Bool) (cur patch : Option (List (String × JVal)))
    (h : ∀ d, patch = some d → wfDict d = true) :
    updDictField mergeNested (updDictField mergeNested cur patch) patch
      = updDictField mergeNested cur patch := by
  cases patch with
  | none => rfl
  | some d =>
    have hd := h d rfl
    unfold updDictField
    dsimp only
    by_cases hmc : (mergeNested && !(cur.getD []).isEmpty) = true
    · rw [if_pos hmc]
      have hmn : mergeNested = true := ((Bool.and_eq_true _ _).mp hmc).1
      have hcne : (cur.getD []).isEmpty = false := by
        have := ((Bool.and_eq_true _ _).mp hmc).2
        simpa using this
      have hc2 : ((some (deepMergeDict (cur.getD []) d)).getD []).isEmpty = false := by
        simpa using deepMergeDict_ne_empty (cur.getD []) d hcne
      rw [if_pos (by simp [hmn, deepMergeDict_ne_empty (cur.getD []) d hcne])]
      have hidem := deepMergeDict_idem d hd (cur.getD [])
      simp only [Option.getD_some]
      rw [hidem]
    · rw [if_neg hmc]
      by_cases hc2 : (mergeNested && !((some d).getD []).isEmpty) = true
      · rw [if_pos hc2]
        have hdne : d.isEmpty = false := by
          have := ((Bool.and_eq_true _ _).mp hc2).2
          simpa using this
        have h0 : deepMergeDict ([] : List (String × JVal)) d = d := by
          rw [deepMergeDict_eq]
          simp
        have hidem := deepMergeDict_idem d hd []
        rw [h0] at hidem
        simp only [Option.getD_some]
        rw [hidem]
      · rw [if_neg hc2]

/-- C9 (confirmed): `PolicyRepository.update` is idempotent in its patch —
applying the same update patch twice yields the same policy state as
applying it once: each deep-merged dict column satisfies
`deep_merge(deep_merge(old, patch), patch) = deep_merge(old, patch)` (for
patches whose dicts have pairwise-distinct keys, as Python dicts do), and
the wholesale replacement of `context_rules` is likewise idempotent. -/
theorem c9_update_idempotent (mergeNested : Bool) (s : PolicyDictState)
    (patch : PolicyPatch) (hw : patchWF patch) :
    updatePolicyDicts mergeNested (updatePolicyDicts mergeNested s patch) patch
      = updatePolicyDicts mergeNested s patch := by
  obtain ⟨h1, h2, h3, h4, h5, h6, h7⟩ := hw
  unfold updatePolicyDicts
  simp only [PolicyDictState.mk.injEq]
  refine ⟨updDictField_idem _ _ _ h1, updDictField_idem _ _ _ h2,
    updDictField_idem _ _ _ h3, updDictField_idem _ _ _ h4,
    updDictField_idem _ _ _ h5, updDictField_idem _ _ _ h6,
    updDictField_idem _ _ _ h7, ?_⟩
  cases patch.context_rules <;> rfl

/-- C9 witness: idempotence applied to a concrete policy state and patch. -/
theorem c9_witness :
    updatePolicyDicts true (updatePolicyDicts true policyStateC9 policyPatchC9) policyPatchC9
      = updatePolicyDicts true policyStateC9 policyPatchC9 :=
  c9_update_idempotent true policyStateC9 policyPatchC9
    ⟨(fun d h => by
        injection h with h2
        rw [← h2]
        decide),
     (fun _ h => nomatch h), (fun _ h => nomatch h), (fun _ h => nomatch h),
     (fun _ h => nomatch h), (fun _ h => nomatch h), (fun _ h => nomatch h)⟩

/-- C4 (amended): when both an LLM-analyst result (with a score, no policy
violations and no explicit BLOCK) and a real quarantine dict reach the
fusion block, the fused decision is exactly the threshold rule of the
claim applied to the LLM and quarantine scores ONLY: the input-stage score
(a free variable on the left that does not occur on the right) never
enters the combined score that the decision compares against the
thresholds. -/
theorem c4_fusion_combined_excludes_input_score
    (c : Config) (l : LLMResult) (q : QuarResult) (inputScore s : ℚ)
    (hviol : l.policy_violations = [])
    (hdec : (l.decision == "BLOCK") = false)
    (hscore : l.score = some s) :
    (fusionStep (some c) (some l) (.real q) inputScore).map (·.final_decision) =
      some (fusionSpecClaim (getDecisionThresholds c).block_threshold
        (getDecisionThresholds c).allow_threshold
        (getDecisionThresholds c).use_severity_fallback
        (sevRuleBlocks c (fusionMaxSeverity l q)) [s, q.score]) := by
  simp only [fusionStep, fusionSpecClaim, fusionMaxSeverity, hviol, hdec, hscore,
    List.isEmpty_nil, Bool.not_true, Bool.false_eq_true, if_false, List.foldl]
  split_ifs <;> rfl

/-- C4 witness: the fused decision at a concrete analyst result and
quarantine dict, with the hypotheses discharged concretely. -/
theorem c4_witness :
    (⟨"ALLOW", some 0, "", none, [], [], false⟩ : LLMResult).policy_violations = [] ∧
    ((⟨"ALLOW", some 0, "", none, [], [], false⟩ : LLMResult).decision == "BLOCK") = false ∧
    (⟨"ALLOW", some 0, "", none, [], [], false⟩ : LLMResult).score = some 0 ∧
    (fusionStep (some cfgPlain) (some ⟨"ALLOW", some 0, "", none, [], [], false⟩)
        (.real ⟨"PASS", 0, "safe"⟩) 1).map (·.final_decision) =
      some (fusionSpecClaim (getDecisionThresholds cfgPlain).block_threshold
        (getDecisionThresholds cfgPlain).allow_threshold
        (getDecisionThresholds cfgPlain).use_severity_fallback
        (sevRuleBlocks cfgPlain
          (fusionMaxSeverity ⟨"ALLOW", some 0, "", none, [], [], false⟩ ⟨"PASS", 0, "safe"⟩))
        [0, (⟨"PASS", 0, "safe"⟩ : QuarResult).score]) :=
  ⟨rfl, rfl, rfl,
    c4_fusion_combined_excludes_input_score cfgPlain
      ⟨"ALLOW", some 0, "", none, [], [], false⟩ ⟨"PASS", 0, "safe"⟩ 1 0 rfl rfl rfl⟩

/-- C4 counterexample: with thresholds block = 0.4 / allow = 0.3, an input
stage score of 0.45 (PASS, severity medium at threshold 0.85) and a
quarantine score of 0.05, the pipeline returns ALLOWED, while the claim
formula fused over all available stage scores (input included) returns
BLOCKED since max(0.45, 0.05) = 0.45 exceeds the block threshold. -/
theorem c4_counterexample :
    analyze (some cfgC4) 0.85 true true "get_mail" "data" none none
        true false true false false none 0.45 .timeout .timeout .err ⟨"PASS", 0.05, "safe"⟩ =
      some { final_decision := "ALLOWED", safe_to_use := true, final_score := some 0.05 } ∧
    fusionSpecClaim (getDecisionThresholds cfgC4).block_threshold
      (getDecisionThresholds cfgC4).allow_threshold
      (getDecisionThresholds cfgC4).use_severity_fallback
      (sevRuleBlocks cfgC4 "medium") [0.45, 0.05] = "BLOCKED" :=
  ⟨by decide, by decide⟩

/-- Every successful fusion outcome carries final decision ALLOWED or
BLOCKED: the fusion block never produces another decision string. -/
theorem fusionStep_decision_cases (cfg : Option Config) (llm : Option LLMResult)
    (quar : QuarOut) (inputScore : ℚ) (fo : FusionOut)
    (h : fusionStep cfg llm quar inputScore = some fo) :
    fo.final_decision = "ALLOWED" ∨ fo.final_decision = "BLOCKED" := by
  simp only [fusionStep] at h
  repeat' split at h
  all_goals first
    | exact Option.noConfusion h
    | (injection h with h; subst h; first | exact Or.inl rfl | exact Or.inr rfl)

/-- Helper for C1: the safe-flag/decision invariant on the quarantine tail
of the pipeline. -/
theorem analyzeQuarTail_safe (cfg : Option Config) (functionName : String)
    (targetFunction : Option String) (llmAnalysis : Bool)
    (llmRes : Option LLMResult) (quarRes : QuarOut) (inputScore : ℚ) (r : Response)
    (h : analyzeQuarTail cfg functionName targetFunction llmAnalysis llmRes quarRes
      inputScore = some r) :
    r.safe_to_use = true ↔ r.final_decision ≠ "BLOCKED" := by
  unfold analyzeQuarTail at h
  unfold_let at h
  repeat' split at h
  all_goals first
    | exact Option.noConfusion h
    | (injection h with h; subst h; simp; done)
    | (injection h with h; subst h;
       rename_i fo heq hov
       rcases fusionStep_decision_cases _ _ _ _ fo heq with h1 | h1 <;> rw [h1] <;> simp)

set_option maxHeartbeats 1000000 in
/-- Helper for C1: the safe-flag/decision invariant on the pipeline tail
from the LLM gates onward. -/
theorem analyzeLLMTail_safe (cfg : Option Config)
    (enableQuarantine clientAvailable : Bool) (functionName : String)
    (targetFunction : Option String)
    (inputAnalysis llmAnalysis quarantineAnalysis : Bool)
    (inputRes : InputResult) (llmRes : Option LLMResult) (inputScore : ℚ)
    (quarOracle : QuarResult) (r : Response)
    (h : analyzeLLMTail cfg enableQuarantine clientAvailable functionName targetFunction
      inputAnalysis llmAnalysis quarantineAnalysis inputRes llmRes inputScore quarOracle
      = some r) :
    r.safe_to_use = true ↔ r.final_decision ≠ "BLOCKED" := by
  unfold analyzeLLMTail at h
  unfold_let at h
  repeat' split at h
  all_goals first
    | exact Option.noConfusion h
    | (injection h with h; subst h; simp; done)
    | exact analyzeQuarTail_safe _ _ _ _ _ _ _ _ h

set_option maxHeartbeats 1600000 in
/-- C1 (amended): on every terminating run of the pipeline, `safe_to_use`
is true exactly when the final decision is not BLOCKED — so BLOCKED
responses carry `safe_to_use = false`, and both ALLOWED and
ALLOWED_WITH_WARNING responses carry `safe_to_use = true`. -/
theorem c1_safe_to_use_iff_not_blocked
    (cfg : Option Config) (inputBlockThreshold : ℚ)
    (enableQuarantine clientAvailable : Bool) (functionName resultText : String)
    (userRole targetFunction : Option String)
    (inputAnalysis llmAnalysis quarantineAnalysis quickAnalysis enableKeywordDetection : Bool)
    (keywords : Option (List String)) (inputScore : ℚ)
    (llmO1 llmO2 : CompleterOutcome) (llmO3 : PlainOutcome)
    (quarOracle : QuarResult) (r : Response)
    (h : analyze cfg inputBlockThreshold enableQuarantine clientAvailable functionName
      resultText userRole targetFunction inputAnalysis llmAnalysis quarantineAnalysis
      quickAnalysis enableKeywordDetection keywords inputScore llmO1 llmO2 llmO3
      quarOracle = some r) :
    r.safe_to_use = true ↔ r.final_decision ≠ "BLOCKED" := by
  unfold analyze at h
  unfold_let at h
  repeat' split at h
  all_goals first
    | exact Option.noConfusion h
    | (injection h with h; subst h; simp; done)
    | exact analyzeLLMTail_safe _ _ _ _ _ _ _ _ _ _ _ _ _ h

/-- C1 witness: the invariant applied to a concrete run that returns a
plain ALLOWED response. -/
theorem c1_witness :
    analyze (some cfgPlain) 0.85 true true "get_mail" "data" none none
        false false false false false none 0 .timeout .timeout .err ⟨"PASS", 0, "safe"⟩ =
      some { final_decision := "ALLOWED", safe_to_use := true } ∧
    (({ final_decision := "ALLOWED", safe_to_use := true } : Response).safe_to_use = true ↔
      ({ final_decision := "ALLOWED", safe_to_use := true } : Response).final_decision
        ≠ "BLOCKED") :=
  ⟨by decide,
    c1_safe_to_use_iff_not_blocked (some cfgPlain) 0.85 true true "get_mail" "data"
      none none false false false false false none 0 .timeout .timeout .err
      ⟨"PASS", 0, "safe"⟩ { final_decision := "ALLOWED", safe_to_use := true } (by decide)⟩

/-- C1 counterexample: a quarantine stage that fails (decision ERROR)
makes the pipeline return final decision ALLOWED_WITH_WARNING with
`safe_to_use = true`, so `safe_to_use` is not equivalent to the final
decision being ALLOWED as the claim states. -/
theorem c1_counterexample :
    ∃ r, analyze (some cfgPlain) 0.85 true true "get_mail" "data" none none
        false false true false false none 0 .timeout .timeout .err ⟨"ERROR", 0, "safe"⟩ =
      some r ∧ r.safe_to_use = true ∧ r.final_decision ≠ "ALLOWED" :=
  ⟨{ final_decision := "ALLOWED_WITH_WARNING", safe_to_use := true,
     warning := some "Quarantine analysis failed" }, by decide, by decide, by decide⟩

end

end Hipocap
